import Mathlib

/-!
Verification development for the narrata quantitative analysis engine.

The Python source is shallowly embedded over exact rationals (`ℚ`): pandas
Series become `List ℚ` (a numeric column after `to_numeric(...).dropna()`),
frames become an explicit `Frame` structure, and raised exceptions become
`Except NarrataErr`.  Floating-point square roots and the standard normal
inverse CDF have no exact rational counterpart, so the functions that use
them take the root / inverse-CDF as an explicit function parameter
(`sqrtQ`, `invCdf`); every theorem below either quantifies over that
parameter or constrains it only by properties the real function enjoys
(such as `sqrtQ 0 = 0`, from `√0 = 0`).  Optional backends
(pandas_ta, tslearn, ruptures) are modelled as `Option`-valued capability
parameters, mirroring the module-level `ta`, `SymbolicAggregateApproximation`
and `rpt` globals of the source; `none` is the backend-absent environment.
-/

set_option maxRecDepth 100000

attribute [local semireducible] Rat.add Rat.mul Rat.sub Rat.inv

namespace Narrata

/-! ## Numeric helpers shared by the embedded analyzers -/

/-- Arithmetic mean of a list, `np.mean` / `Series.mean` (0 on the empty
list, which the source never hits on the paths modelled here). -/
def qmean (l : List ℚ) : ℚ := l.sum / l.length

/-- Population variance (`ddof=0`), i.e. the square of `std(ddof=0)`. -/
def varPop (l : List ℚ) : ℚ :=
  (l.map (fun x => (x - qmean l) ^ 2)).sum / l.length

/-- Contiguous windows of length `w`: `rolling(window=w)` after `dropna`,
keeping only the fully populated windows. -/
def windows (w : ℕ) (l : List α) : List (List α) :=
  (List.range (l.length + 1 - w)).map (fun i => (l.drop i).take w)

/-- Last `n` elements of a list (`Series.tail(n)` / `iloc[-n:]`). -/
def takeLast (n : ℕ) (l : List α) : List α := l.drop (l.length - n)

/-- Sign function, `np.sign`. -/
def signQ (x : ℚ) : ℚ := if x > 0 then 1 else if x < 0 then -1 else 0

/-- Round half to even (Python `round(x)` banker's rounding). -/
def roundHalfEven (x : ℚ) : ℤ :=
  let f : ℤ := ⌊x⌋
  let r : ℚ := x - f
  if r < 1/2 then f
  else if r > 1/2 then f + 1
  else if f % 2 = 0 then f else f + 1

/-- Python `round(x, 2)` on the exact rational value. -/
def roundTo2 (x : ℚ) : ℚ := (roundHalfEven (x * 100) : ℚ) / 100

/-- Linear-interpolation quantile of a list, `np.quantile` /
`Series.quantile` with the default `interpolation='linear'`.  (Sorting is
`insertionSort` throughout this file: the Python sorts are stable, and
since every sort key here determines the sorted value, any correct sort
produces the same list.) -/
def quantileLinear (l : List ℚ) (q : ℚ) : ℚ :=
  let s := l.insertionSort (· ≤ ·)
  let n := s.length
  if n = 0 then 0
  else
    let pos : ℚ := q * (n - 1)
    let i : ℕ := (⌊pos⌋).toNat
    let frac : ℚ := pos - ⌊pos⌋
    let lo := s.getD i 0
    let hi := s.getD (i + 1) lo
    lo + frac * (hi - lo)

/-- Median as computed by `Series.median`: middle of the sorted values, or
the mean of the two middle values for an even count. -/
def qmedian (l : List ℚ) : ℚ :=
  let s := l.insertionSort (· ≤ ·)
  let n := s.length
  if n = 0 then 0
  else if n % 2 = 1 then s.getD (n / 2) 0
  else (s.getD (n / 2 - 1) 0 + s.getD (n / 2) 0) / 2

/-- Index of insertion with `np.searchsorted(bp, v, side='right')` on a
sorted breakpoint array: the number of breakpoints that are `≤ v`. -/
def searchsortedRight (bp : List ℚ) (v : ℚ) : ℕ :=
  bp.countP (fun b => decide (b ≤ v))

/-- Consecutive differences, `Series.diff()` after dropping the leading
`NaN`. -/
def diffs (l : List ℚ) : List ℚ :=
  (l.zip l.tail).map (fun p => p.2 - p.1)

/-- Simple returns, `Series.pct_change().dropna()`.  A zero previous value
yields `none` (the `0/0 → NaN` cell that `dropna` removes); the theorems
below only evaluate this on series without zero values, where the model
agrees exactly with pandas. -/
def pctChange (l : List ℚ) : List ℚ :=
  (l.zip l.tail).filterMap
    (fun p => if p.1 = 0 then none else some ((p.2 - p.1) / p.1))

/-- Exponentially weighted mean with smoothing factor `a`,
`Series.ewm(alpha=a, adjust=False).mean()`. -/
def ewmAlpha (a : ℚ) : List ℚ → List ℚ
  | [] => []
  | x :: xs => go x xs
where
  go (s : ℚ) : List ℚ → List ℚ
    | [] => [s]
    | y :: ys => s :: go ((1 - a) * s + a * y) ys

/-- Exponentially weighted mean parameterized by span,
`Series.ewm(span=n, adjust=False).mean()` (so `alpha = 2/(n+1)`). -/
def ewmSpan (n : ℚ) (l : List ℚ) : List ℚ := ewmAlpha (2 / (n + 1)) l

/-- The letter string `chr(ord('a') + i)` for a list of symbol indices. -/
def lettersOfIndices (idxs : List ℕ) : String :=
  ⟨idxs.map (fun i => Char.ofNat (97 + i))⟩

/-! ## Exceptions (narrata/exceptions.py)

The source hierarchy is `NarrataError` with exactly two concrete
subclasses: `ValidationError` and `UnsupportedFormatError`.  There is no
`BackendUnavailableError` class anywhere in the package. -/

/-- Error value mirroring the concrete exception classes of
`narrata/exceptions.py`. -/
inductive NarrataErr where
  | validationError (msg : String)
  | unsupportedFormatError (msg : String)
deriving Repr, DecidableEq

/-- Computations that may raise a narrata exception. -/
abbrev Exc (α : Type) := Except NarrataErr α

instance {α : Type} [DecidableEq α] : DecidableEq (Exc α) := fun
  | .ok a, .ok b =>
    match decEq a b with
    | isTrue h => isTrue (by rw [h])
    | isFalse h => isFalse (fun he => h (Except.ok.inj he))
  | .ok _, .error _ => isFalse (fun he => Except.noConfusion he)
  | .error _, .ok _ => isFalse (fun he => Except.noConfusion he)
  | .error e, .error f =>
    match decEq e f with
    | isTrue h => isTrue (by rw [h])
    | isFalse h => isFalse (fun he => h (Except.error.inj he))

/-! ## Frames (narrata/validation/ohlcv.py)

A pandas DataFrame is modelled by its validation-relevant observables:
the `_narrata_validated` attrs marker, index shape flags, the timestamp
index itself (timestamps as integers), and named columns of cells, where a
cell is `none` for a value that `pd.to_numeric(..., errors="coerce")`
turns into `NaN` and `some q` for a numeric value.  The model assumes the
input is a DataFrame (the `isinstance` guard of the source is outside a
typed embedding), and the marker-writing mutation at the end of a
successful validation is dropped: it only affects later calls on the same
object, which the theorems below quantify over explicitly via
`validatedAttr`. -/

structure Frame where
  validatedAttr : Bool
  isMultiIndex : Bool
  isDatetimeIndex : Bool
  index : List ℤ
  cols : List (String × List (Option ℚ))
  tickerAttr : Option String := none
  nameAttr : Option String := none
deriving Repr, DecidableEq

namespace Frame

/-- Column membership, `column in df.columns`. -/
def hasCol (df : Frame) (c : String) : Bool :=
  df.cols.any (fun p => p.1 == c)

/-- Raw cells of a column (empty when the column is absent). -/
def colCells (df : Frame) (c : String) : List (Option ℚ) :=
  ((df.cols.find? (fun p => p.1 == c)).map Prod.snd).getD []

/-- Numeric column values, `pd.to_numeric(df[c], errors="coerce").dropna()`. -/
def numericValues (df : Frame) (c : String) : List ℚ :=
  (df.colCells c).filterMap id

/-- Numeric column values paired with their timestamps, for the analyzers
that read `series.index`. -/
def numericWithIndex (df : Frame) (c : String) : List (ℤ × ℚ) :=
  (df.index.zip (df.colCells c)).filterMap
    (fun p => p.2.map (fun v => (p.1, v)))

end Frame

/-- Required OHLCV columns, `REQUIRED_OHLCV_COLUMNS`. -/
def requiredOhlcvColumns : List String :=
  ["Open", "High", "Low", "Close", "Volume"]

/-- Embedding of `validate_ohlcv_frame`: the checks in source order, with
the `_narrata_validated` short-circuit first. -/
def validate_ohlcv_frame (df : Frame)
    (requiredColumns : List String := requiredOhlcvColumns) : Exc Unit :=
  if df.validatedAttr then .ok ()
  else if df.index.isEmpty then
    .error (.validationError "Input DataFrame must not be empty.")
  else if df.isMultiIndex then
    .error (.validationError
      "MultiIndex input is not supported. For stacked multi-ticker data, split by ticker and call narrate per symbol.")
  else if !df.isDatetimeIndex then
    .error (.validationError "DataFrame index must be a pandas DatetimeIndex.")
  else if ¬ df.index.Nodup then
    .error (.validationError
      "DataFrame index must not contain duplicate timestamps.")
  else if ¬ df.index.Pairwise (· ≤ ·) then
    .error (.validationError
      "DataFrame index must be sorted in ascending order.")
  else
    match requiredColumns.filter (fun name => !df.hasCol name) with
    | [] => .ok ()
    | missing =>
      .error (.validationError
        ("DataFrame is missing required columns: " ++
          String.intercalate ", " missing ++ "."))

/-! ## Indicator engine (narrata/analysis/indicators.py) -/

/-- Structured indicator output mirroring `IndicatorStats` of
`narrata/types.py`. -/
structure IndicatorStats where
  rsi_period : ℕ
  rsi_value : ℚ
  rsi_state : String
  macd_value : ℚ
  macd_signal : ℚ
  macd_histogram : ℚ
  macd_state : String
  crossover_days_ago : Option ℕ
  bb_position : Option String := none
  bb_squeeze : Option Bool := none
  ma_cross : Option String := none
  ma_cross_days_ago : Option ℕ := none
  volume_ratio : Option ℚ := none
  volume_state : Option String := none
  volatility_percentile : Option ℚ := none
  volatility_state : Option String := none
deriving Repr, DecidableEq

/-- Embedding of `compute_rsi`: Wilder smoothing (`ewm(alpha=1/period,
adjust=False)`) of clipped gains and losses; a zero final average loss is
`replace(0.0, nan)`-ed so the final RSI cell is `NaN` and the source
substitutes `100.0`; the result is clamped to `[0, 100]`. -/
def compute_rsi (values : List ℚ) (period : ℕ := 14) : Exc ℚ :=
  if period < 2 then .error (.validationError "RSI period must be >= 2.")
  else if values.length < period + 1 then
    .error (.validationError "Not enough data to compute RSI.")
  else
    let delta := diffs values
    let gains := delta.map (fun d => max d 0)
    let losses := delta.map (fun d => -(min d 0))
    let avgGain := ewmAlpha (1 / period) gains
    let avgLoss := ewmAlpha (1 / period) losses
    let g := (avgGain.getLast?).getD 0
    let l := (avgLoss.getLast?).getD 0
    let latest : ℚ := if l = 0 then 100 else 100 - 100 / (1 + g / l)
    .ok (max 0 (min 100 latest))

/-- Embedding of `compute_macd`: latest values of the MACD line
(`EMA(fast) − EMA(slow)`), its signal EMA and the histogram. -/
def compute_macd (values : List ℚ) (fastPeriod : ℕ := 12)
    (slowPeriod : ℕ := 26) (signalPeriod : ℕ := 9) : Exc (ℚ × ℚ × ℚ) :=
  if fastPeriod ≥ slowPeriod then
    .error (.validationError "fast_period must be smaller than slow_period.")
  else if values.length < slowPeriod + signalPeriod then
    .error (.validationError "Not enough data to compute MACD.")
  else
    let fastEma := ewmSpan fastPeriod values
    let slowEma := ewmSpan slowPeriod values
    let macdLine := List.zipWith (· - ·) fastEma slowEma
    let signalLine := ewmSpan signalPeriod macdLine
    let histogram := List.zipWith (· - ·) macdLine signalLine
    .ok ((macdLine.getLast?).getD 0, (signalLine.getLast?).getD 0,
      (histogram.getLast?).getD 0)

/-- Embedding of `compute_bollinger`.  `sqrtQ` stands for the square root
inside `rolling(...).std(ddof=0)`; the bandwidth cell is `none` when the
SMA is zero, modelling the `0/0 → NaN` cell that `dropna` removes (a
nonzero numerator over a zero SMA would be a `±inf` cell instead, which
never occurs on the inputs evaluated in this development). -/
def compute_bollinger (sqrtQ : ℚ → ℚ) (values : List ℚ) (period : ℕ := 20)
    (numStd : ℚ := 2) : Exc (String × Bool) :=
  if values.length < period then
    .error (.validationError "Not enough data to compute Bollinger Bands.")
  else
    let sma := (windows period values).map qmean
    let std := (windows period values).map (fun w => sqrtQ (varPop w))
    let upper := List.zipWith (fun m s => m + numStd * s) sma std
    let lower := List.zipWith (fun m s => m - numStd * s) sma std
    let bandwidth :=
      (List.zipWith (fun u l => (u, l)) upper lower).zip sma
        |>.filterMap (fun p =>
          if p.2 = 0 then none else some ((p.1.1 - p.1.2) / p.2))
    let latestPrice := (values.getLast?).getD 0
    let latestUpper := (upper.getLast?).getD 0
    let latestLower := (lower.getLast?).getD 0
    let latestSma := (sma.getLast?).getD 0
    let position :=
      if latestUpper = latestLower then "at midline"
      else
        let pct := (latestPrice - latestLower) / (latestUpper - latestLower)
        if pct ≥ 95/100 then "above upper band"
        else if pct ≥ 80/100 then "near upper band"
        else if pct ≤ 5/100 then "below lower band"
        else if pct ≤ 20/100 then "near lower band"
        else if latestPrice > latestSma then "upper half"
        else "lower half"
    let squeeze :=
      if bandwidth.length ≥ period then
        let recentBw := (bandwidth.getLast?).getD 0
        let lookbackBw := quantileLinear (takeLast period bandwidth) (20/100)
        decide (recentBw ≤ lookbackBw)
      else false
    .ok (position, squeeze)

/-- Backward scan shared by `compute_ma_crossover` and
`_classify_macd_lines`: over the reversed sign sequence, the first
position `d` (days ago) where two consecutive signs are nonzero and
differ. -/
def firstFlip : List ℚ → ℕ → Option ℕ
  | a :: b :: rest, d =>
    if a ≠ b ∧ a ≠ 0 ∧ b ≠ 0 then some d else firstFlip (b :: rest) (d + 1)
  | _, _ => none

/-- Embedding of `compute_ma_crossover`: sign of `SMA(fast) − SMA(slow)`
with a backward scan for the last sign flip.  Insufficient history returns
`(none, none)` instead of raising. -/
def compute_ma_crossover (values : List ℚ) (fastPeriod : ℕ := 50)
    (slowPeriod : ℕ := 200) : Option String × Option ℕ :=
  if values.length < slowPeriod + 1 then (none, none)
  else
    let fastSma := (windows fastPeriod values).map qmean
    let slowSma := (windows slowPeriod values).map qmean
    let k := max fastPeriod slowPeriod
    let diff := List.zipWith (· - ·)
      (fastSma.drop (k - fastPeriod)) (slowSma.drop (k - slowPeriod))
    if diff.length < 2 then (none, none)
    else
      let signs := diff.map signQ
      let current :=
        if (signs.getLast?).getD 0 ≥ 0 then "golden cross" else "death cross"
      (some current, firstFlip signs.reverse 0)

/-- Embedding of `compute_volume_state`: ratio of the latest volume to its
rolling average, guarded against a nonpositive average. -/
def compute_volume_state (df : Frame) (lookback : ℕ := 20) :
    Exc (ℚ × String) :=
  if !df.hasCol "Volume" then
    .error (.validationError "DataFrame must contain Volume column.")
  else
    let volume := df.numericValues "Volume"
    if volume.length < lookback + 1 then
      .error (.validationError "Not enough data to compute volume state.")
    else
      let avg := qmean (takeLast lookback volume)
      if avg ≤ 0 then .ok (1, "average")
      else
        let latest := (volume.getLast?).getD 0
        let ratio := latest / avg
        let state :=
          if ratio ≥ 2 then "unusually high"
          else if ratio ≥ 3/2 then "above average"
          else if ratio ≤ 1/2 then "unusually low"
          else if ratio ≤ 3/4 then "below average"
          else "average"
        .ok (roundTo2 ratio, state)

/-- Embedding of `compute_volatility_percentile`: rolling stddev of simple
returns ranked (count of trailing values `≤` the current one) against its
own tail of at most `lookback` values. -/
def compute_volatility_percentile (sqrtQ : ℚ → ℚ) (values : List ℚ)
    (window : ℕ := 20) (lookback : ℕ := 252) : Exc (ℚ × String) :=
  if values.length < window + 2 then
    .error (.validationError "Not enough data to compute volatility percentile.")
  else
    let returns := pctChange values
    let rollingVol := (windows window returns).map (fun w => sqrtQ (varPop w))
    if rollingVol.isEmpty then
      .error (.validationError "Not enough data to compute volatility percentile.")
    else
      let currentVol := (rollingVol.getLast?).getD 0
      let rankWindow := takeLast (min lookback rollingVol.length) rollingVol
      let percentile : ℚ :=
        (roundHalfEven
          ((rankWindow.countP (fun v => decide (v ≤ currentVol)) : ℚ) /
            rankWindow.length * 100) : ℤ)
      let state :=
        if percentile ≤ 10 then "extremely low"
        else if percentile ≤ 25 then "low"
        else if percentile ≥ 90 then "extremely high"
        else if percentile ≥ 75 then "high"
        else "moderate"
      .ok (percentile, state)

/-- Embedding of `_classify_rsi`. -/
def classify_rsi (values : List ℚ) (rsiValue : ℚ) : String :=
  if rsiValue ≥ 70 then "overbought"
  else if rsiValue ≤ 30 then "oversold"
  else
    let recent := takeLast 4 values
    if recent.length ≥ 2 ∧
        (recent.getLast?).getD 0 ≥ (recent.head?).getD 0 then
      "neutral-bullish"
    else "neutral-bearish"

/-- Embedding of `_classify_macd_lines`.  The two input series are modelled
as index-aligned lists, so the `concat(...).dropna()` alignment is a zip. -/
def classify_macd_lines (macdLine signalLine : List ℚ) :
    String × Option ℕ :=
  let aligned := macdLine.zip signalLine
  if aligned.isEmpty then ("neutral", none)
  else
    let diff := aligned.map (fun p => p.1 - p.2)
    let direction :=
      if (diff.getLast?).getD 0 ≥ 0 then "bullish" else "bearish"
    let signs := diff.map signQ
    match firstFlip signs.reverse 0 with
    | some d => (direction, some d)
    | none =>
      let widening :=
        if diff.length ≥ 2 then
          decide (|(diff.getLast?).getD 0| ≥
            |(diff.getD (diff.length - 2) 0)|)
        else true
      (direction ++ ", " ++ (if widening then "widening" else "narrowing"),
        none)

/-- Embedding of `_classify_macd`. -/
def classify_macd (values : List ℚ) : String × Option ℕ :=
  let fastEma := ewmSpan 12 values
  let slowEma := ewmSpan 26 values
  let macdLine := List.zipWith (· - ·) fastEma slowEma
  classify_macd_lines macdLine (ewmSpan 9 macdLine)

/-- Abstract pandas_ta backend: `ta.rsi` yields an optional series of
optional cells, `ta.macd` yields an optional frame whose three columns are
looked up by prefix (a `none` column models a missing prefix match). -/
structure TaBackend where
  rsi : List ℚ → ℕ → Option (List (Option ℚ))
  macd : List ℚ → Option (Option (List (Option ℚ)) ×
    Option (List (Option ℚ)) × Option (List (Option ℚ)))

/-- Embedding of `_compute_rsi_with_pandas_ta`: fall back to the in-house
RSI when the backend yields nothing usable. -/
def compute_rsi_with_pandas_ta (ta : TaBackend) (values : List ℚ)
    (period : ℕ) : Exc ℚ :=
  match ta.rsi values period with
  | none => compute_rsi values period
  | some rsi =>
    let rsiNumeric := rsi.filterMap id
    if rsiNumeric.isEmpty then compute_rsi values period
    else .ok ((rsiNumeric.getLast?).getD 0)

/-- Embedding of `_macd_fallback`. -/
def macd_fallback (values : List ℚ) : Exc (ℚ × ℚ × ℚ × String × Option ℕ) :=
  match compute_macd values with
  | .error e => .error e
  | .ok (m, s, h) =>
    let (st, d) := classify_macd values
    .ok (m, s, h, st, d)

/-- Embedding of `_compute_macd_with_pandas_ta`. -/
def compute_macd_with_pandas_ta (ta : TaBackend) (values : List ℚ) :
    Exc (ℚ × ℚ × ℚ × String × Option ℕ) :=
  match ta.macd values with
  | none => macd_fallback values
  | some (macdCol, signalCol, histCol) =>
    match macdCol, signalCol, histCol with
    | some mc, some sc, some hc =>
      let macdSeries := mc.filterMap id
      let signalSeries := sc.filterMap id
      let histSeries := hc.filterMap id
      if macdSeries.isEmpty ∨ signalSeries.isEmpty ∨ histSeries.isEmpty then
        macd_fallback values
      else
        let (st, d) := classify_macd_lines macdSeries signalSeries
        .ok ((macdSeries.getLast?).getD 0, (signalSeries.getLast?).getD 0,
          (histSeries.getLast?).getD 0, st, d)
    | _, _, _ => macd_fallback values

/-- Embedding of `analyze_indicators`: the primary RSI/MACD computations
propagate their errors, while each optional sub-computation is wrapped in
`try/except ValidationError` and degrades to `none` fields. -/
def analyze_indicators (ta : Option TaBackend) (sqrtQ : ℚ → ℚ) (df : Frame)
    (column : String := "Close") (rsiPeriod : ℕ := 14) : Exc IndicatorStats :=
  match validate_ohlcv_frame df with
  | .error e => .error e
  | .ok _ =>
    if !df.hasCol column then
      .error (.validationError
        ("Column '" ++ column ++ "' does not exist in DataFrame."))
    else
      let values := df.numericValues column
      let primary : Exc (ℚ × ℚ × ℚ × ℚ × String × Option ℕ) :=
        match ta with
        | none =>
          match compute_rsi values rsiPeriod with
          | .error e => .error e
          | .ok rsiValue =>
            match compute_macd values with
            | .error e => .error e
            | .ok (macdValue, signalValue, histogram) =>
              let (macdState, crossoverDays) := classify_macd values
              .ok (rsiValue, macdValue, signalValue, histogram, macdState,
                crossoverDays)
        | some taB =>
          match compute_rsi_with_pandas_ta taB values rsiPeriod with
          | .error e => .error e
          | .ok rsiValue =>
            match compute_macd_with_pandas_ta taB values with
            | .error e => .error e
            | .ok (macdValue, signalValue, histogram, macdState,
                crossoverDays) =>
              .ok (rsiValue, macdValue, signalValue, histogram, macdState,
                crossoverDays)
      match primary with
      | .error e => .error e
      | .ok (rsiValue, macdValue, signalValue, histogram, macdState,
          crossoverDays) =>
        let bb := (compute_bollinger sqrtQ values).toOption
        let (maCross, maCrossDays) := compute_ma_crossover values
        let vol := (compute_volume_state df).toOption
        let volPct := (compute_volatility_percentile sqrtQ values).toOption
        .ok {
          rsi_period := rsiPeriod
          rsi_value := rsiValue
          rsi_state := classify_rsi values rsiValue
          macd_value := macdValue
          macd_signal := signalValue
          macd_histogram := histogram
          macd_state := macdState
          crossover_days_ago := crossoverDays
          bb_position := bb.map Prod.fst
          bb_squeeze := bb.map Prod.snd
          ma_cross := maCross
          ma_cross_days_ago := maCrossDays
          volume_ratio := vol.map Prod.fst
          volume_state := vol.map Prod.snd
          volatility_percentile := volPct.map Prod.fst
          volatility_state := volPct.map Prod.snd }

/-! ## Support/resistance extractor (narrata/analysis/support_resistance.py) -/

/-- Single level, `PriceLevel` of `narrata/types.py`. -/
structure PriceLevel where
  price : ℚ
  touches : ℕ
deriving Repr, DecidableEq

/-- Level sets, `LevelStats` of `narrata/types.py`. -/
structure LevelStats where
  supports : List PriceLevel
  resistances : List PriceLevel
deriving Repr, DecidableEq

/-- Clip an integer position into `[0, n-1]`, the `mode='clip'` boundary
handling of `scipy.signal.argrelextrema`. -/
def clipIdx (n : ℕ) (i : ℤ) : ℕ := (max 0 (min ((n : ℤ) - 1) i)).toNat

/-- Embedding of `argrelextrema(prices, cmp, order=order)` (default
`mode='clip'`): positions whose value satisfies `cmp` against every
neighbour at clipped offsets `±1..±order`. -/
def relExtremaIndices (cmp : ℚ → ℚ → Bool) (order : ℕ)
    (prices : List ℚ) : List ℕ :=
  (List.range prices.length).filter (fun i =>
    (List.range order).all (fun k =>
      let x := prices.getD i 0
      cmp x (prices.getD (clipIdx prices.length ((i : ℤ) + (k + 1))) 0) &&
      cmp x (prices.getD (clipIdx prices.length ((i : ℤ) - (k + 1))) 0)))

/-- Embedding of `_cluster_values`: greedy first-fit clustering of the
sorted candidates, where a value joins the first cluster whose running
mean is within tolerance. -/
def addToClusters (tol : ℚ) : List (List ℚ) → ℚ → List (List ℚ)
  | [], v => [[v]]
  | c :: rest, v =>
    if |v - qmean c| ≤ tol then (c ++ [v]) :: rest
    else c :: addToClusters tol rest v

/-- Decidability of the descending order used for support candidates. -/
instance : DecidableRel (fun a b : ℚ => b ≤ a) :=
  fun a b => inferInstanceAs (Decidable (b ≤ a))

/-- Sorted-order driver of `_cluster_values` (`reverse=True` for supports,
descending; ascending for resistances). -/
def cluster_values (values : List ℚ) (tol : ℚ) (rev : Bool) :
    List (List ℚ) :=
  let ordered :=
    if rev then values.insertionSort (fun a b => b ≤ a)
    else values.insertionSort (· ≤ ·)
  ordered.foldl (addToClusters tol) []

/-- Sort key order used by `_build_levels`: descending touches; on ties
supports (`reverse=True` over key `(touches, price)`) put the higher price
first, resistances (key `(touches, -price)`) the lower price first. -/
def levelRel (rev : Bool) (a b : PriceLevel) : Prop :=
  if a.touches = b.touches then
    if rev then b.price ≤ a.price else a.price ≤ b.price
  else b.touches ≤ a.touches

instance levelRel.instDecidable (rev : Bool) : DecidableRel (levelRel rev) :=
  fun a b => by unfold levelRel; infer_instance

/-- Embedding of `_build_levels`: cluster, price each cluster at its mean,
count touches as the larger of extrema touches and all-price band touches,
sort and truncate. -/
def build_levels (candidateValues : List ℚ) (extremaValues : List ℚ)
    (allPrices : List ℚ) (tol : ℚ) (maxLevels : ℕ) (rev : Bool) :
    List PriceLevel :=
  if candidateValues.isEmpty then []
  else
    let clusters := cluster_values candidateValues tol rev
    let levels := clusters.map (fun c =>
      let levelPrice := qmean c
      let touchesExtrema :=
        extremaValues.countP (fun v => decide (|v - levelPrice| ≤ tol))
      let touchesBand :=
        allPrices.countP (fun v => decide (|v - levelPrice| ≤ tol))
      PriceLevel.mk levelPrice (max touchesExtrema touchesBand))
    (levels.insertionSort (levelRel rev)).take maxLevels

/-- Embedding of `find_support_resistance`. -/
def find_support_resistance (df : Frame) (column : String := "Close")
    (toleranceRatio : ℚ := 1/100) (maxLevels : ℕ := 2)
    (extremaOrder : ℕ := 5) : Exc LevelStats :=
  match validate_ohlcv_frame df with
  | .error e => .error e
  | .ok _ =>
    if !df.hasCol column then
      .error (.validationError
        ("Column '" ++ column ++ "' does not exist in DataFrame."))
    else if toleranceRatio ≤ 0 then
      .error (.validationError "tolerance_ratio must be > 0.")
    else if maxLevels < 1 then
      .error (.validationError "max_levels must be >= 1.")
    else if extremaOrder < 1 then
      .error (.validationError "extrema_order must be >= 1.")
    else
      let prices := df.numericValues column
      if prices.length < extremaOrder * 2 + 3 then
        .error (.validationError "Not enough data to find support/resistance.")
      else
        let minimaIndices :=
          relExtremaIndices (fun a b => decide (a ≤ b)) extremaOrder prices
        let maximaIndices :=
          relExtremaIndices (fun a b => decide (b ≤ a)) extremaOrder prices
        let currentPrice := (prices.getLast?).getD 0
        let tolerance :=
          max (currentPrice * toleranceRatio) (mkRat 1 1000000000)
        let supportValues := minimaIndices.filterMap (fun i =>
          let p := prices.getD i 0
          if p ≤ currentPrice then some p else none)
        let resistanceValues := maximaIndices.filterMap (fun i =>
          let p := prices.getD i 0
          if currentPrice ≤ p then some p else none)
        let supports := build_levels supportValues
          (minimaIndices.map (fun i => prices.getD i 0)) prices tolerance
          maxLevels true
        let resistances := build_levels resistanceValues
          (maximaIndices.map (fun i => prices.getD i 0)) prices tolerance
          maxLevels false
        .ok (LevelStats.mk supports resistances)

/-! ## Symbolic encoders (narrata/analysis/symbolic.py) -/

/-- Structured symbolic output, `SymbolicStats` of `narrata/types.py`. -/
structure SymbolicStats where
  method : String
  word_size : ℕ
  alphabet_size : ℕ
  symbols : String
deriving Repr, DecidableEq

/-- Embedding of `_z_normalize`.  `sqrtQ` stands for the square root
inside `values.std(ddof=0)`; the `np.isclose(std, 0.0)` guard is the
default `atol = 1e-8` absolute comparison. -/
def z_normalize (sqrtQ : ℚ → ℚ) (values : List ℚ) : List ℚ :=
  let mean := qmean values
  let std := sqrtQ (varPop values)
  if |std| ≤ mkRat 1 100000000 then values.map (fun _ => 0)
  else values.map (fun v => (v - mean) / std)

/-- Embedding of `np.array_split(values, n)`: `n` chunks whose sizes
differ by at most one, longer chunks first. -/
def array_split : List α → ℕ → List (List α)
  | _, 0 => []
  | l, n + 1 =>
    let k := l.length / (n + 1)
    let m := l.length % (n + 1)
    let sz := if m = 0 then k else k + 1
    l.take sz :: array_split (l.drop sz) n

/-- Embedding of `_piecewise_aggregate`. -/
def piecewise_aggregate (values : List ℚ) (segments : ℕ) : List ℚ :=
  (array_split values segments).map qmean

/-- Embedding of `_gaussian_breakpoints`, with the standard normal inverse
CDF abstracted as `invCdf` (evaluated at `i/alphabet_size` for
`i = 1 .. alphabet_size − 1`). -/
def gaussian_breakpoints (invCdf : ℚ → ℚ) (alphabetSize : ℕ) : List ℚ :=
  (List.range (alphabetSize - 1)).map
    (fun i : ℕ => invCdf (((i : ℚ) + 1) / (alphabetSize : ℚ)))

/-- Embedding of `_sax_encode_inhouse`: z-normalize, piecewise-aggregate,
then map each chunk mean to a letter via `searchsorted(..., side='right')`
over the Gaussian breakpoints. -/
def sax_encode_inhouse (sqrtQ invCdf : ℚ → ℚ) (values : List ℚ)
    (wordSize alphabetSize : ℕ) : String :=
  let normalized := z_normalize sqrtQ values
  let paa := piecewise_aggregate normalized wordSize
  let breakpoints := gaussian_breakpoints invCdf alphabetSize
  lettersOfIndices (paa.map (searchsortedRight breakpoints))

/-- Abstract tslearn backend for `_sax_encode_with_tslearn`: a fitted
transform producing integer symbol indices for the given word and
alphabet sizes. -/
abbrev SaxBackend := List ℚ → ℕ → ℕ → List ℕ

/-- Embedding of `sax_encode`.  `tslearn` mirrors the module-level
`SymbolicAggregateApproximation` capability: when present its transform
is used, otherwise the in-house encoder runs. -/
def sax_encode (tslearn : Option SaxBackend) (sqrtQ invCdf : ℚ → ℚ)
    (df : Frame) (column : String := "Close") (wordSize : ℕ := 16)
    (alphabetSize : ℕ := 8) : Exc SymbolicStats :=
  match validate_ohlcv_frame df with
  | .error e => .error e
  | .ok _ =>
    if !df.hasCol column then
      .error (.validationError
        ("Column '" ++ column ++ "' does not exist in DataFrame."))
    else if wordSize < 2 then
      .error (.validationError "word_size must be >= 2.")
    else if alphabetSize < 2 ∨ alphabetSize > 26 then
      .error (.validationError "alphabet_size must be between 2 and 26.")
    else
      let values := df.numericValues column
      if values.length < wordSize then
        .error (.validationError
          "Not enough data points for requested word_size.")
      else
        let symbols :=
          match tslearn with
          | some transform =>
            lettersOfIndices (transform values wordSize alphabetSize)
          | none =>
            sax_encode_inhouse sqrtQ invCdf values wordSize alphabetSize
        .ok (SymbolicStats.mk "SAX" wordSize alphabetSize symbols)

/-- Abstract ruptures change-point backend: given the signal and the
minimum segment size, `Pelt(model="rbf", min_size=...).fit(...).predict(pen=...)`
returns the breakpoint list (the penalty is threaded through unevaluated
since the model is abstract). -/
abbrev RupturesBackend := List ℚ → ℕ → ℚ → List ℕ

/-- Embedding of `_astride_encode_core`: change-point segmentation of the
normalized series, segment means quantized through their own empirical
quantile boundaries, clamped to the alphabet. -/
def astride_encode_core (rpt : RupturesBackend) (values : List ℚ)
    (nSegments alphabetSize : ℕ) (penalty : ℚ) : String :=
  let minSize := max 2 (values.length / (nSegments * 2))
  let bkpts := rpt values minSize penalty
  let starts := 0 :: bkpts.dropLast
  let ends := bkpts
  let segmentMeans := (starts.zip ends).map
    (fun p => qmean ((values.drop p.1).take (p.2 - p.1)))
  if segmentMeans.length < 2 then
    String.mk (List.replicate (max 1 segmentMeans.length) 'a')
  else
    let quantileBoundaries := (List.range (alphabetSize + 1)).map
      (fun i => quantileLinear segmentMeans ((i : ℚ) / alphabetSize))
    let bins := (quantileBoundaries.drop 1).dropLast
    let symbolIndices := segmentMeans.map (searchsortedRight bins)
    lettersOfIndices (symbolIndices.map (fun i => min i (alphabetSize - 1)))

/-- Embedding of `astride_encode`.  `rpt` mirrors the module-level
`ruptures` capability; when it is `none` the encoder raises the
`ValidationError` directing the user to install ruptures — there is no
fallback path. -/
def astride_encode (rpt : Option RupturesBackend) (sqrtQ : ℚ → ℚ)
    (df : Frame) (column : String := "Close") (nSegments : ℕ := 16)
    (alphabetSize : ℕ := 8) (penalty : ℚ := 3) : Exc SymbolicStats :=
  match validate_ohlcv_frame df with
  | .error e => .error e
  | .ok _ =>
    if !df.hasCol column then
      .error (.validationError
        ("Column '" ++ column ++ "' does not exist in DataFrame."))
    else if nSegments < 2 then
      .error (.validationError "n_segments must be >= 2.")
    else if alphabetSize < 2 ∨ alphabetSize > 26 then
      .error (.validationError "alphabet_size must be between 2 and 26.")
    else
      match rpt with
      | none =>
        .error (.validationError
          "ASTRIDE encoding requires the 'ruptures' package. Install with: pip install narrata[symbolic]")
      | some rptB =>
        let values := df.numericValues column
        if values.length < nSegments then
          .error (.validationError
            "Not enough data points for requested n_segments.")
        else
          let normalized := z_normalize sqrtQ values
          let symbols := astride_encode_core rptB normalized nSegments
            alphabetSize penalty
          .ok (SymbolicStats.mk "ASTRIDE" symbols.length alphabetSize symbols)

/-! ## Regime classifier (narrata/analysis/regimes.py)

Timestamps travel with the values as `(index, value)` pairs because the
classifier reports the start date of the current regime.  `_to_date` is
the identity on these integer timestamps. -/

/-- Structured regime output, `RegimeStats` of `narrata/types.py`. -/
structure RegimeStats where
  trend_label : String
  volatility_label : String
  start_date : ℤ
deriving Repr, DecidableEq

/-- Embedding of `_trend_label`. -/
def trend_label (meanReturn threshold : ℚ) : String :=
  if meanReturn > threshold then "Uptrend"
  else if meanReturn < -threshold then "Downtrend"
  else "Ranging"

/-- Index-carrying `pct_change().dropna()`: each return keeps the
timestamp of its current row.  As in `pctChange`, a zero previous value
models the dropped `NaN` cell. -/
def pctChangeIdx (l : List (ℤ × ℚ)) : List (ℤ × ℚ) :=
  (l.zip l.tail).filterMap (fun p =>
    if p.1.2 = 0 then none
    else some (p.2.1, (p.2.2 - p.1.2) / p.1.2))

/-- Rolling mean over index-carrying values
(`rolling(window, min_periods=window).mean().dropna()`), each window
labelled by the timestamp of its last row. -/
def rollingMeanIdx (window : ℕ) (l : List (ℤ × ℚ)) : List (ℤ × ℚ) :=
  (windows window l).map (fun w =>
    (((w.getLast?).map Prod.fst).getD 0, qmean (w.map Prod.snd)))

/-- Rolling population stddev over index-carrying values
(`rolling(window, min_periods=window).std(ddof=0).dropna()`). -/
def rollingStdIdx (sqrtQ : ℚ → ℚ) (window : ℕ) (l : List (ℤ × ℚ)) :
    List (ℤ × ℚ) :=
  (windows window l).map (fun w =>
    (((w.getLast?).map Prod.fst).getD 0, sqrtQ (varPop (w.map Prod.snd))))

/-- Backward scan of `_analyze_with_rolling`: walk the rolling rows from
the most recent one and keep extending the regime start while both labels
match the current ones. -/
def regimeScan (threshold volBaseline : ℚ) (curTrend curVol : String) :
    List ((ℤ × ℚ) × (ℤ × ℚ)) → ℤ → ℤ
  | [], s => s
  | (m, sd) :: rest, s =>
    if trend_label m.2 threshold ≠ curTrend ∨
        (if sd.2 > volBaseline then "high" else "low") ≠ curVol then s
    else regimeScan threshold volBaseline curTrend curVol rest m.1

/-- Embedding of `_analyze_with_rolling`. -/
def analyze_with_rolling (sqrtQ : ℚ → ℚ) (returns : List (ℤ × ℚ))
    (window : ℕ) (trendThreshold : ℚ) : Exc (String × String × ℤ) :=
  let rollingMean := rollingMeanIdx window returns
  let rollingStd := rollingStdIdx sqrtQ window returns
  if rollingMean.isEmpty ∨ rollingStd.isEmpty then
    .error (.validationError "Not enough data to infer regime.")
  else
    let volBaseline := qmedian (rollingStd.map Prod.snd)
    let currentTrend :=
      trend_label (((rollingMean.getLast?).map Prod.snd).getD 0) trendThreshold
    let currentVolatility :=
      if (((rollingStd.getLast?).map Prod.snd).getD 0) > volBaseline then
        "high"
      else "low"
    let startTs := regimeScan trendThreshold volBaseline currentTrend
      currentVolatility (rollingMean.zip rollingStd).reverse
      (((rollingMean.getLast?).map Prod.fst).getD 0)
    .ok (currentTrend, currentVolatility, startTs)

/-- Embedding of `_analyze_with_ruptures`, over an abstract PELT
prediction. -/
def analyze_with_ruptures (rpt : RupturesBackend) (sqrtQ : ℚ → ℚ)
    (returns : List (ℤ × ℚ)) (penalty trendThreshold : ℚ) (minSize : ℕ) :
    String × String × ℤ :=
  let signal := returns.map Prod.snd
  let bkpts := rpt signal (max 10 minSize) (max penalty (1/10))
  let lastStart₀ :=
    if bkpts.length > 1 then bkpts.getD (bkpts.length - 2) 0 else 0
  let lastEnd :=
    if bkpts.isEmpty then signal.length else (bkpts.getLast?).getD 0
  let segment₀ := (returns.drop lastStart₀).take (lastEnd - lastStart₀)
  let segment := if segment₀.isEmpty then returns else segment₀
  let lastStart := if segment₀.isEmpty then 0 else lastStart₀
  let meanRet := qmean (segment.map Prod.snd)
  let vol := sqrtQ (varPop (segment.map Prod.snd))
  let baselineVol := sqrtQ (varPop signal)
  (trend_label meanRet trendThreshold,
    if vol > baselineVol then "high" else "low",
    ((returns.getD lastStart (0, 0)).1))

/-- Embedding of `analyze_regime`.  `rpt` mirrors the module-level
`ruptures` capability: the change-point path runs only when it is present
and at least `max(window, 40)` return samples exist. -/
def analyze_regime (rpt : Option RupturesBackend) (sqrtQ : ℚ → ℚ)
    (df : Frame) (column : String := "Close") (window : ℕ := 20)
    (penalty : ℚ := 3) (trendThreshold : ℚ := mkRat 5 10000) :
    Exc RegimeStats :=
  match validate_ohlcv_frame df with
  | .error e => .error e
  | .ok _ =>
    if !df.hasCol column then
      .error (.validationError
        ("Column '" ++ column ++ "' does not exist in DataFrame."))
    else if window < 5 then
      .error (.validationError "window must be >= 5.")
    else
      let prices := df.numericWithIndex column
      let returns := pctChangeIdx prices
      if returns.length < window then
        .error (.validationError "Not enough data to infer regime.")
      else
        let path : Exc (String × String × ℤ) :=
          match rpt with
          | some rptB =>
            if returns.length ≥ max window 40 then
              .ok (analyze_with_ruptures rptB sqrtQ returns penalty
                trendThreshold window)
            else analyze_with_rolling sqrtQ returns window trendThreshold
          | none => analyze_with_rolling sqrtQ returns window trendThreshold
        match path with
        | .error e => .error e
        | .ok (trendLabel, volatilityLabel, startDate) =>
          .ok (RegimeStats.mk trendLabel volatilityLabel startDate)

/-! ## Summary analysis (narrata/analysis/summary.py) -/

/-- Structured summary output, `SummaryStats` of `narrata/types.py`
(`end` is a Lean keyword, hence `endVal`; `change_pct = none` models the
`math.nan` sentinel for a zero start value). -/
structure SummaryStats where
  ticker : Option String
  column : String
  points : ℕ
  frequency : String
  start_date : ℤ
  end_date : ℤ
  start : ℚ
  endVal : ℚ
  minimum : ℚ
  maximum : ℚ
  mean : ℚ
  std : ℚ
  change_pct : Option ℚ
deriving Repr, DecidableEq

/-- Embedding of `_resolve_ticker` (Python truthiness: empty or
whitespace-only strings fall through). -/
def resolve_ticker (df : Frame) (ticker : Option String) : Option String :=
  match ticker with
  | some t =>
    if t ≠ "" then some t else resolveFromFrame df
  | none => resolveFromFrame df
where
  resolveFromFrame (df : Frame) : Option String :=
    match df.tickerAttr with
    | some a =>
      if a.trim ≠ "" then some a.trim
      else
        match df.nameAttr with
        | some n => if n.trim ≠ "" then some n.trim else none
        | none => none
    | none =>
      match df.nameAttr with
      | some n => if n.trim ≠ "" then some n.trim else none
      | none => none

/-- Embedding of `analyze_summary`.  The frequency-label collaborator
(`infer_frequency_label`, which wraps `pd.infer_freq`) is abstracted as
`freqFn` over the timestamp index. -/
def analyze_summary (sqrtQ : ℚ → ℚ) (freqFn : List ℤ → String) (df : Frame)
    (column : String := "Close") (ticker : Option String := none) :
    Exc SummaryStats :=
  match validate_ohlcv_frame df with
  | .error e => .error e
  | .ok _ =>
    if !df.hasCol column then
      .error (.validationError
        ("Column '" ++ column ++ "' does not exist in DataFrame."))
    else
      let series := df.numericValues column
      if series.isEmpty then
        .error (.validationError
          ("Column '" ++ column ++ "' contains no numeric values."))
      else
        let start := (series.head?).getD 0
        let endValue := (series.getLast?).getD 0
        let changePct : Option ℚ :=
          if start = 0 then none
          else some ((endValue - start) / |start| * 100)
        .ok {
    ticker := resolve_ticker df ticker
    column := column
    points := series.length
    frequency := freqFn df.index
    start_date := (df.index.head?).getD 0
    end_date := (df.index.getLast?).getD 0
    start := start
    endVal := endValue
    minimum := (series.min?).getD 0
    maximum := (series.max?).getD 0
    mean := qmean series
    std := sqrtQ (varPop series)
    change_pct := changePct }

/-! ## Narration composer (narrata/composition/narrate.py)

The composer is embedded with its real analyzer models (regime,
indicators, SAX, support/resistance, summary) and with the pure
formatting collaborators — `describe_*`, `make_sparkline`,
`format_sections`, `digit_tokenize` — plus the pattern detector abstracted
as parameters collected in `NarrateDeps`; the theorems below hold for
every choice of these parameters. -/

structure NarrateDeps (π : Type) where
  sqrtQ : ℚ → ℚ
  invCdf : ℚ → ℚ
  freqFn : List ℤ → String
  ta : Option TaBackend
  tslearn : Option SaxBackend
  rptRegime : Option RupturesBackend
  sparkline : List ℚ → ℕ → String
  describeSummaryLines : SummaryStats → List String
  describeRegime : RegimeStats → String
  describeIndicators : IndicatorStats → String
  describeSax : SymbolicStats → String
  detectPatterns : Frame → Exc π
  describePatterns : π → String
  describeCandlestick : π → String
  describeLevels : LevelStats → String
  formatSections : List (String × String) → String → Exc String
  digitTokenize : String → String

/-- Embedding of `narrate`: validation, the at-least-one-section guard,
the unconditional base summary, then the enabled sections in source
order. -/
def narrate {π : Type} (deps : NarrateDeps π) (df : Frame)
    (column : String := "Close") (ticker : Option String := none)
    (includeSummary : Bool := true) (includeSparkline : Bool := true)
    (includeRegime : Bool := true) (includeIndicators : Bool := true)
    (includeSymbolic : Bool := true) (includePatterns : Bool := true)
    (includeSupportResistance : Bool := true) (sparklineWidth : ℕ := 20)
    (symbolicWordSize : ℕ := 16) (symbolicAlphabetSize : ℕ := 8)
    (digitLevel : Bool := false) (outputFormat : String := "plain") :
    Exc String :=
  match validate_ohlcv_frame df with
  | .error e => .error e
  | .ok _ =>
    if !df.hasCol column then
      .error (.validationError
        ("Column '" ++ column ++ "' does not exist in DataFrame."))
    else if !(includeSummary || includeSparkline || includeRegime ||
        includeIndicators || includeSymbolic || includePatterns ||
        includeSupportResistance) then
      .error (.validationError
        "At least one narration component must be enabled.")
    else
      match analyze_summary deps.sqrtQ deps.freqFn df column ticker with
      | .error e => .error e
      | .ok summary =>
        let overviewRes : Exc (List (String × String)) :=
          if includeSummary || includeSparkline then
            let entityName := (summary.ticker).getD summary.column
            if includeSparkline then
              let values := df.numericValues column
              if values.isEmpty then
                .error (.validationError
                  ("Column '" ++ column ++
                    "' contains no numeric values for sparkline rendering."))
              else
                .ok [("overview",
                  entityName ++ " (" ++ toString summary.points ++
                    " pts, " ++ summary.frequency ++ "): " ++
                    deps.sparkline values sparklineWidth)]
            else
              .ok [("overview",
                entityName ++ " (" ++ toString summary.points ++
                  " pts, " ++ summary.frequency ++ ")")]
          else .ok []
        match overviewRes with
        | .error e => .error e
        | .ok sections₁ =>
          let sections₂ :=
            if includeSummary then
              let summaryLines := deps.describeSummaryLines summary
              sections₁ ++
                [("date_range", "Date range: " ++
                  toString summary.start_date ++ " to " ++
                  toString summary.end_date),
                  ("range", summaryLines.getD 0 ""),
                  ("change", summaryLines.getD 1 "")]
            else sections₁
          let regimeRes : Exc (List (String × String)) :=
            if includeRegime then
              match analyze_regime deps.rptRegime deps.sqrtQ df column with
              | .error e => .error e
              | .ok st => .ok [("regime", deps.describeRegime st)]
            else .ok []
          match regimeRes with
          | .error e => .error e
          | .ok regimeSections =>
            let indicatorsRes : Exc (List (String × String)) :=
              if includeIndicators then
                match analyze_indicators deps.ta deps.sqrtQ df column with
                | .error e => .error e
                | .ok st => .ok [("indicators", deps.describeIndicators st)]
              else .ok []
            match indicatorsRes with
            | .error e => .error e
            | .ok indicatorSections =>
              let symbolicRes : Exc (List (String × String)) :=
                if includeSymbolic then
                  match sax_encode deps.tslearn deps.sqrtQ deps.invCdf df
                      column symbolicWordSize symbolicAlphabetSize with
                  | .error e => .error e
                  | .ok sym => .ok [("symbolic", deps.describeSax sym)]
                else .ok []
              match symbolicRes with
              | .error e => .error e
              | .ok symbolicSections =>
                let patternsRes : Exc (List (String × String)) :=
                  if includePatterns then
                    match deps.detectPatterns df with
                    | .error e => .error e
                    | .ok ps =>
                      .ok [("patterns", deps.describePatterns ps),
                        ("candlestick", deps.describeCandlestick ps)]
                  else .ok []
                match patternsRes with
                | .error e => .error e
                | .ok patternSections =>
                  let levelsRes : Exc (List (String × String)) :=
                    if includeSupportResistance then
                      match find_support_resistance df column with
                      | .error e => .error e
                      | .ok levels =>
                        .ok [("levels", deps.describeLevels levels)]
                    else .ok []
                  match levelsRes with
                  | .error e => .error e
                  | .ok levelSections =>
                    let sections := sections₂ ++ regimeSections ++
                      indicatorSections ++ symbolicSections ++
                      patternSections ++ levelSections
                    match deps.formatSections sections outputFormat with
                    | .error e => .error e
                    | .ok rendered =>
                      if digitLevel then .ok (deps.digitTokenize rendered)
                      else .ok rendered

/-! ## Claim C9: the validated marker short-circuits every check -/

/-- C9.  If the frame's attrs carry a truthy `_narrata_validated` marker,
`validate_ohlcv_frame` returns immediately without performing any check,
so even an empty, unsorted, duplicated or column-less frame passes the
frame-validation step of every analyzer. -/
theorem validate_ohlcv_frame_marker_short_circuit (df : Frame)
    (requiredColumns : List String) (h : df.validatedAttr = true) :
    validate_ohlcv_frame df requiredColumns = .ok () := by
  unfold validate_ohlcv_frame
  simp [h]

/-- Witness for C9: a frame that is empty, multi-indexed, not
datetime-indexed and missing every required OHLCV column still validates
because its marker is set. -/
theorem validate_ohlcv_frame_marker_short_circuit_witness :
    (Frame.mk true true false [] [] none none).validatedAttr = true ∧
    validate_ohlcv_frame (Frame.mk true true false [] [] none none)
      requiredOhlcvColumns = .ok () :=
  ⟨rfl, validate_ohlcv_frame_marker_short_circuit _ _ rfl⟩

/-! ## Claim C1: ASTRIDE without ruptures -/

/-- Small fully valid frame: 16 rows, strictly increasing datetime index,
all five OHLCV columns present, numeric closes. -/
def valid16Frame : Frame :=
  { validatedAttr := false
    isMultiIndex := false
    isDatetimeIndex := true
    index := (List.range 16).map Int.ofNat
    cols := [("Open", []), ("High", []), ("Low", []),
      ("Close", (List.range 16).map (fun i : ℕ => some (i : ℚ))),
      ("Volume", [])] }

/-- The message raised by `astride_encode` when ruptures is absent. -/
def rupturesRequiredMsg : String :=
  "ASTRIDE encoding requires the 'ruptures' package. Install with: pip install narrata[symbolic]"

/-- C1 (amended).  When the ruptures backend is absent, `astride_encode`
never succeeds — there is no fallback encoding path — and as soon as the
frame and arguments are valid it fails with `ValidationError` carrying the
install-ruptures message.  The source exception hierarchy
(`narrata/exceptions.py`, modelled by `NarrataErr`) has no
`BackendUnavailableError` class; the error raised is a `ValidationError`. -/
theorem astride_encode_no_ruptures (sqrtQ : ℚ → ℚ) (df : Frame)
    (column : String) (nSegments alphabetSize : ℕ) (penalty : ℚ) :
    (∀ stats, astride_encode none sqrtQ df column nSegments alphabetSize
      penalty ≠ .ok stats) ∧
    (validate_ohlcv_frame df = .ok () → df.hasCol column = true →
      2 ≤ nSegments → 2 ≤ alphabetSize → alphabetSize ≤ 26 →
      astride_encode none sqrtQ df column nSegments alphabetSize penalty =
        .error (.validationError rupturesRequiredMsg)) := by
  constructor
  · intro stats h
    unfold astride_encode at h
    rcases hv : validate_ohlcv_frame df with e | u
    · rw [hv] at h
      exact Except.noConfusion h
    · rw [hv] at h
      split_ifs at h
  · intro hval hcol hn ha₂ ha₂₆
    have h1 : ¬ nSegments < 2 := by omega
    have h2 : ¬ (alphabetSize < 2 ∨ alphabetSize > 26) := by omega
    unfold astride_encode
    rw [hval]
    simp [hcol, h1, h2, rupturesRequiredMsg]

/-- Witness for the amended C1 at a concrete, fully valid frame. -/
theorem astride_encode_no_ruptures_witness :
    validate_ohlcv_frame valid16Frame = .ok () ∧
    valid16Frame.hasCol "Close" = true ∧
    astride_encode none (fun _ => 0) valid16Frame "Close" 16 8 3 =
      .error (.validationError rupturesRequiredMsg) :=
  ⟨by decide, by decide,
    (astride_encode_no_ruptures (fun _ => 0) valid16Frame "Close" 16 8 3).2
      (by decide) (by decide) (by decide) (by decide) (by decide)⟩

/-- Counterexample for C1 as stated: at a valid frame with the backend
absent, the encoder fails with `ValidationError` — the only error classes
in the package are `ValidationError` and `UnsupportedFormatError`, so no
`BackendUnavailableError` is raised. -/
theorem astride_encode_counterexample :
    astride_encode none (fun _ => 0) valid16Frame "Close" 16 8 3 =
      .error (.validationError rupturesRequiredMsg) := by decide

/-! ## Claim C4: SAX output shape on the in-house path -/

/-- Letters stay letters: for an index below 26, the character code of
`chr(ord('a') + i)` is exactly `97 + i`. -/
theorem char_ofNat_letter_toNat : ∀ i : ℕ, i ≤ 25 →
    (Char.ofNat (97 + i)).toNat = 97 + i := by
  decide

/-- The letter string has one character per symbol index. -/
theorem lettersOfIndices_length (idxs : List ℕ) :
    (lettersOfIndices idxs).length = idxs.length := by
  simp [lettersOfIndices, String.length]

/-- `np.array_split` always yields exactly `n` chunks. -/
theorem array_split_length (l : List α) (n : ℕ) :
    (array_split l n).length = n := by
  induction n generalizing l with
  | zero => rfl
  | succ n ih => simp [array_split, ih]

/-- A `searchsorted` insertion index never exceeds the breakpoint count. -/
theorem searchsortedRight_le_length (bp : List ℚ) (v : ℚ) :
    searchsortedRight bp v ≤ bp.length :=
  List.countP_le_length _

/-- The in-house Gaussian breakpoint list has `alphabet_size − 1`
entries. -/
theorem gaussian_breakpoints_length (invCdf : ℚ → ℚ) (a : ℕ) :
    (gaussian_breakpoints invCdf a).length = a - 1 := by
  unfold gaussian_breakpoints
  rw [List.length_map, List.length_range]

/-- C4.  On the in-house path (tslearn absent), for any inverse CDF and
root function, `sax_encode` succeeds with a symbol string of length
exactly `word_size` whose every character offset from `'a'` is below
`alphabet_size`. -/
theorem sax_encode_shape (sqrtQ invCdf : ℚ → ℚ) (df : Frame)
    (column : String) (wordSize alphabetSize : ℕ)
    (hval : validate_ohlcv_frame df = .ok ())
    (hcol : df.hasCol column = true) (hw : 2 ≤ wordSize)
    (ha₂ : 2 ≤ alphabetSize) (ha₂₆ : alphabetSize ≤ 26)
    (hlen : wordSize ≤ (df.numericValues column).length) :
    ∃ stats,
      sax_encode none sqrtQ invCdf df column wordSize alphabetSize =
        .ok stats ∧
      stats.symbols.length = wordSize ∧
      ∀ c ∈ stats.symbols.data, c.toNat - 97 < alphabetSize := by
  have h1 : ¬ wordSize < 2 := by omega
  have h2 : ¬ (alphabetSize < 2 ∨ alphabetSize > 26) := by omega
  have h3 : ¬ (df.numericValues column).length < wordSize := by omega
  refine ⟨SymbolicStats.mk "SAX" wordSize alphabetSize
    (sax_encode_inhouse sqrtQ invCdf (df.numericValues column) wordSize
      alphabetSize), ?_, ?_, ?_⟩
  · unfold sax_encode
    rw [hval]
    simp [hcol, h1, h2, h3]
  · show (sax_encode_inhouse sqrtQ invCdf (df.numericValues column)
      wordSize alphabetSize).length = wordSize
    unfold sax_encode_inhouse
    rw [lettersOfIndices_length, List.length_map]
    unfold piecewise_aggregate
    rw [List.length_map, array_split_length]
  · intro c hc
    have hc' : c ∈ List.map (fun i => Char.ofNat (97 + i))
        ((piecewise_aggregate
          (z_normalize sqrtQ (df.numericValues column)) wordSize).map
          (searchsortedRight (gaussian_breakpoints invCdf alphabetSize))) :=
      hc
    simp only [List.map_map, List.mem_map, Function.comp] at hc'
    obtain ⟨x, _, hchar⟩ := hc'
    have hle : searchsortedRight (gaussian_breakpoints invCdf alphabetSize)
        x ≤ alphabetSize - 1 := by
      calc searchsortedRight (gaussian_breakpoints invCdf alphabetSize) x
          ≤ (gaussian_breakpoints invCdf alphabetSize).length :=
            searchsortedRight_le_length _ _
        _ = alphabetSize - 1 := gaussian_breakpoints_length _ _
    have h25 : searchsortedRight (gaussian_breakpoints invCdf alphabetSize)
        x ≤ 25 := by omega
    rw [← hchar, char_ofNat_letter_toNat _ h25]
    omega

/-- Witness for C4 at a concrete 16-sample frame with word size 4 and
alphabet size 5. -/
theorem sax_encode_shape_witness :
    ∃ stats,
      sax_encode none (fun x => x) (fun x => x) valid16Frame "Close" 4 5 =
        .ok stats ∧
      stats.symbols.length = 4 ∧
      ∀ c ∈ stats.symbols.data, c.toNat - 97 < 5 :=
  sax_encode_shape (fun x => x) (fun x => x) valid16Frame "Close" 4 5
    (by decide) (by decide) (by decide) (by decide) (by decide) (by decide)

/-! ## Claim C3: RSI is bounded and guards its sample count -/

/-- C3.  With a valid period, `compute_rsi` succeeds and returns a value
in `[0, 100]` whenever at least `period + 1` samples are present, and
fails with the insufficient-data `ValidationError` otherwise. -/
theorem compute_rsi_bounds (values : List ℚ) (period : ℕ)
    (hp : 2 ≤ period) :
    (period + 1 ≤ values.length →
      ∃ r, compute_rsi values period = .ok r ∧ 0 ≤ r ∧ r ≤ 100) ∧
    (values.length < period + 1 →
      compute_rsi values period =
        .error (.validationError "Not enough data to compute RSI.")) := by
  constructor
  · intro hlen
    unfold compute_rsi
    rw [if_neg (by omega), if_neg (by omega)]
    refine ⟨_, rfl, ?_, ?_⟩
    · exact le_max_left 0 _
    · exact max_le (by norm_num) (min_le_left 100 _)
  · intro hlen
    unfold compute_rsi
    rw [if_neg (by omega), if_pos hlen]

/-- Witness for C3 at a concrete series of 15 samples with period 14. -/
theorem compute_rsi_bounds_witness :
    (∃ r, compute_rsi ((List.range 15).map (fun i : ℕ => (i : ℚ))) 14 =
      .ok r ∧ 0 ≤ r ∧ r ≤ 100) ∧
    compute_rsi ((List.range 14).map (fun i : ℕ => (i : ℚ))) 14 =
      .error (.validationError "Not enough data to compute RSI.") :=
  ⟨(compute_rsi_bounds _ 14 (by decide)).1 (by decide),
    (compute_rsi_bounds _ 14 (by decide)).2 (by decide)⟩

/-! ## Claim C10: narrate always runs the base summary -/

/-- C10.  For a valid frame whose selected column has no numeric values,
`narrate` raises `ValidationError` for every flag combination and every
choice of the formatting/pattern collaborators: with at least one section
enabled the error is the base summary's no-numeric-values failure (the
summary runs even when both `include_summary` and `include_sparkline` are
false), and with no section enabled it is the at-least-one-component
failure. -/
theorem narrate_no_numeric_column {π : Type} (deps : NarrateDeps π)
    (df : Frame) (column : String) (ticker : Option String)
    (s₁ s₂ s₃ s₄ s₅ s₆ s₇ : Bool) (sw wsz asz : ℕ) (dl : Bool)
    (fmt : String) (hval : validate_ohlcv_frame df = .ok ())
    (hcol : df.hasCol column = true)
    (hempty : df.numericValues column = []) :
    ((s₁ || s₂ || s₃ || s₄ || s₅ || s₆ || s₇) = true →
      narrate deps df column ticker s₁ s₂ s₃ s₄ s₅ s₆ s₇ sw wsz asz dl fmt =
        .error (.validationError
          ("Column '" ++ column ++ "' contains no numeric values."))) ∧
    ((s₁ || s₂ || s₃ || s₄ || s₅ || s₆ || s₇) = false →
      narrate deps df column ticker s₁ s₂ s₃ s₄ s₅ s₆ s₇ sw wsz asz dl fmt =
        .error (.validationError
          "At least one narration component must be enabled.")) := by
  have hsummary : analyze_summary deps.sqrtQ deps.freqFn df column ticker =
      .error (.validationError
        ("Column '" ++ column ++ "' contains no numeric values.")) := by
    unfold analyze_summary
    rw [hval]
    simp [hcol, hempty]
  constructor
  · intro hany
    unfold narrate
    rw [hval]
    simp [hcol, hany, hsummary]
  · intro hnone
    unfold narrate
    rw [hval]
    simp [hcol, hnone]

/-- Collaborator bundle with trivial formatters, for concrete narrate
evaluations. -/
def trivialDeps : NarrateDeps Unit :=
  { sqrtQ := fun _ => 0
    invCdf := fun _ => 0
    freqFn := fun _ => "daily"
    ta := none
    tslearn := none
    rptRegime := none
    sparkline := fun _ _ => ""
    describeSummaryLines := fun _ => []
    describeRegime := fun _ => ""
    describeIndicators := fun _ => ""
    describeSax := fun _ => ""
    detectPatterns := fun _ => .ok ()
    describePatterns := fun _ => ""
    describeCandlestick := fun _ => ""
    describeLevels := fun _ => ""
    formatSections := fun _ _ => .ok ""
    digitTokenize := fun s => s }

/-- Valid two-row frame whose Close column holds only non-numeric cells. -/
def noNumericFrame : Frame :=
  { validatedAttr := false
    isMultiIndex := false
    isDatetimeIndex := true
    index := [0, 1]
    cols := [("Open", []), ("High", []), ("Low", []),
      ("Close", [none, none]), ("Volume", [])] }

/-- Witness for C10: with summary and sparkline both disabled but the
regime section enabled, narrate still fails with the summary's
no-numeric-values error. -/
theorem narrate_no_numeric_column_witness :
    validate_ohlcv_frame noNumericFrame = .ok () ∧
    noNumericFrame.hasCol "Close" = true ∧
    noNumericFrame.numericValues "Close" = [] ∧
    narrate trivialDeps noNumericFrame "Close" none false false true false
        false false false 20 16 8 false "plain" =
      .error (.validationError
        ("Column '" ++ "Close" ++ "' contains no numeric values.")) :=
  ⟨by decide, by decide, by decide,
    (narrate_no_numeric_column trivialDeps noNumericFrame "Close" none
      false false true false false false false 20 16 8 false "plain"
      (by decide) (by decide) (by decide)).1 (by decide)⟩

/-! ## Claim C7: optional indicator sub-computations degrade independently -/

/-- C7.  On the in-house path, as soon as the primary RSI and MACD
computations succeed, `analyze_indicators` succeeds, and each optional
field is exactly the `toOption` of its own sub-computation: a sub-result
that raised `InsufficientData` becomes a `none` field instead of aborting
the analysis, independently of the other sub-computations. -/
theorem analyze_indicators_degrades (sqrtQ : ℚ → ℚ) (df : Frame)
    (column : String) (rsiPeriod : ℕ) (r m s h : ℚ)
    (hval : validate_ohlcv_frame df = .ok ())
    (hcol : df.hasCol column = true)
    (hrsi : compute_rsi (df.numericValues column) rsiPeriod = .ok r)
    (hmacd : compute_macd (df.numericValues column) = .ok (m, s, h)) :
    analyze_indicators none sqrtQ df column rsiPeriod = .ok {
      rsi_period := rsiPeriod
      rsi_value := r
      rsi_state := classify_rsi (df.numericValues column) r
      macd_value := m
      macd_signal := s
      macd_histogram := h
      macd_state := (classify_macd (df.numericValues column)).1
      crossover_days_ago := (classify_macd (df.numericValues column)).2
      bb_position :=
        ((compute_bollinger sqrtQ (df.numericValues column)).toOption).map
          Prod.fst
      bb_squeeze :=
        ((compute_bollinger sqrtQ (df.numericValues column)).toOption).map
          Prod.snd
      ma_cross := (compute_ma_crossover (df.numericValues column)).1
      ma_cross_days_ago := (compute_ma_crossover (df.numericValues column)).2
      volume_ratio := ((compute_volume_state df).toOption).map Prod.fst
      volume_state := ((compute_volume_state df).toOption).map Prod.snd
      volatility_percentile :=
        ((compute_volatility_percentile sqrtQ
          (df.numericValues column)).toOption).map Prod.fst
      volatility_state :=
        ((compute_volatility_percentile sqrtQ
          (df.numericValues column)).toOption).map Prod.snd } := by
  rcases hcm : classify_macd (df.numericValues column) with ⟨st, d⟩
  rcases hma : compute_ma_crossover (df.numericValues column) with ⟨mc, md⟩
  unfold analyze_indicators
  rw [hval]
  simp [hcol, hrsi, hmacd, hcm, hma]

/-- Frame with 40 numeric closes but only 5 numeric volume cells, so the
volume sub-computation lacks data while RSI/MACD succeed. -/
def sparseVolumeFrame : Frame :=
  { validatedAttr := false
    isMultiIndex := false
    isDatetimeIndex := true
    index := (List.range 40).map Int.ofNat
    cols := [("Open", []), ("High", []), ("Low", []),
      ("Close", (List.range 40).map (fun i : ℕ => some ((i : ℚ) + 1))),
      ("Volume", [some 1, some 1, some 1, some 1, some 1])] }

/-- Witness for C7: the analysis succeeds on `sparseVolumeFrame` and the
volume fields are `none` because `compute_volume_state` failed with
insufficient data. -/
theorem analyze_indicators_degrades_witness :
    ∃ stats,
      analyze_indicators none (fun _ => 0) sparseVolumeFrame "Close" 14 =
        .ok stats ∧
      stats.volume_ratio = none ∧ stats.volume_state = none := by
  have hok : (compute_rsi (sparseVolumeFrame.numericValues "Close")
      14).isOk = true := by decide
  have hok₂ : (compute_macd (sparseVolumeFrame.numericValues "Close")
      12 26 9).isOk = true := by decide
  have hvol : compute_volume_state sparseVolumeFrame 20 =
      .error (.validationError "Not enough data to compute volume state.") :=
    by decide
  rcases hr : compute_rsi (sparseVolumeFrame.numericValues "Close") 14
    with e | r
  · rw [hr] at hok
    exact absurd hok (by simp [Except.isOk, Except.toBool])
  · rcases hm : compute_macd (sparseVolumeFrame.numericValues "Close")
      12 26 9 with e | ⟨m, s, h⟩
    · rw [hm] at hok₂
      exact absurd hok₂ (by simp [Except.isOk, Except.toBool])
    · refine ⟨_, analyze_indicators_degrades (fun _ => 0) sparseVolumeFrame
        "Close" 14 r m s h (by decide) (by decide) hr hm, ?_, ?_⟩ <;>
        simp [hvol, Except.toOption]

/-! ## Claim C2: flat price series -/

/-- Mean of a constant list is the constant. -/
theorem qmean_replicate (n : ℕ) (c : ℚ) (hn : n ≠ 0) :
    qmean (List.replicate n c) = c := by
  have hn' : (n : ℚ) ≠ 0 := Nat.cast_ne_zero.mpr hn
  unfold qmean
  rw [List.sum_replicate, List.length_replicate, nsmul_eq_mul,
    mul_div_cancel_left₀ c hn']

/-- Population variance of a constant list is zero. -/
theorem varPop_replicate (n : ℕ) (c : ℚ) :
    varPop (List.replicate n c) = 0 := by
  cases n with
  | zero => simp [varPop, qmean]
  | succ n =>
    unfold varPop
    rw [List.map_replicate, qmean_replicate _ _ (Nat.succ_ne_zero n),
      sub_self, zero_pow (by norm_num), List.sum_replicate, smul_zero,
      zero_div]

/-- Rolling windows over a constant list are constant windows. -/
theorem windows_replicate (w n : ℕ) (c : ℚ) (hw : 1 ≤ w) (hwn : w ≤ n) :
    windows w (List.replicate n c) =
      List.replicate (n + 1 - w) (List.replicate w c) := by
  unfold windows
  rw [List.length_replicate]
  rw [List.eq_replicate_iff]
  refine ⟨by rw [List.length_map, List.length_range], ?_⟩
  intro b hb
  simp only [List.mem_map, List.mem_range] at hb
  obtain ⟨i, hi, hb⟩ := hb
  rw [← hb, List.drop_replicate, List.take_replicate]
  congr 1
  omega

/-- Simple returns of a constant nonzero series are all zero. -/
theorem pctChange_replicate (n : ℕ) (c : ℚ) (hc : c ≠ 0) :
    pctChange (List.replicate n c) = List.replicate (n - 1) 0 := by
  unfold pctChange
  rw [List.tail_replicate, List.zip_replicate]
  rw [List.filterMap_replicate]
  simp [hc]

/-- Simple returns of the all-zero series are completely dropped. -/
theorem pctChange_replicate_zero (n : ℕ) :
    pctChange (List.replicate n (0 : ℚ)) = [] := by
  unfold pctChange
  rw [List.tail_replicate, List.zip_replicate, List.filterMap_replicate]
  simp

/-- The backward flip scan finds nothing in a constant sign sequence. -/
theorem firstFlip_replicate (x : ℚ) :
    ∀ (m d : ℕ), firstFlip (List.replicate m x) d = none := by
  intro m
  induction m with
  | zero => intro d; rfl
  | succ m ih =>
    intro d
    cases m with
    | zero => rfl
    | succ m' =>
      show firstFlip (x :: x :: List.replicate m' x) d = none
      unfold firstFlip
      rw [if_neg (by simp)]
      exact ih (d + 1)

/-- C2 (amended).  On a flat price series with enough samples for every
sub-computation: Bollinger reports "at midline"; the MA crossover reports
`("golden cross", None)` — the all-zero SMA difference counts as a golden
cross with no flip found, rather than returning no crossover; and the
volatility percentile fails with the insufficient-data `ValidationError`
when the flat level is zero (all return cells are `0/0 → NaN`) but
otherwise reports percentile 100, "extremely high", because every
trailing volatility value is `≤` the current one.  No division by zero
occurs: every division is guarded (`upper = lower` short-circuits the
band position, a zero SMA bandwidth cell is dropped, and the rank-window
size is positive). -/
theorem flat_series_behaviour (sqrtQ : ℚ → ℚ) (c : ℚ) (n : ℕ)
    (hn : 201 ≤ n) (hsq : sqrtQ 0 = 0) :
    (∃ squeeze, compute_bollinger sqrtQ (List.replicate n c) 20 2 =
      .ok ("at midline", squeeze)) ∧
    compute_ma_crossover (List.replicate n c) 50 200 =
      (some "golden cross", none) ∧
    (c = 0 →
      compute_volatility_percentile sqrtQ (List.replicate n c) 20 252 =
        .error (.validationError
          "Not enough data to compute volatility percentile.")) ∧
    (c ≠ 0 →
      compute_volatility_percentile sqrtQ (List.replicate n c) 20 252 =
        .ok (100, "extremely high")) := by
  refine ⟨?_, ?_, ?_, ?_⟩
  · -- Bollinger: constant windows give zero stddev, upper = lower.
    have hlen : ¬ (List.replicate n c).length < 20 := by
      rw [List.length_replicate]; omega
    unfold compute_bollinger
    rw [if_neg hlen]
    rw [windows_replicate 20 n c (by norm_num) (by omega)]
    simp only [List.map_replicate, qmean_replicate 20 c (by norm_num),
      varPop_replicate, hsq, List.zipWith_replicate, min_self, mul_zero,
      add_zero, sub_zero, List.getLast?_replicate]
    have hne : ¬ (n + 1 - 20 = 0) := by omega
    simp only [hne, if_neg, if_false, Option.getD_some, if_pos rfl]
    exact ⟨_, by rw [if_pos trivial]⟩
  · -- MA crossover: all signs are zero.
    have hlen : ¬ (List.replicate n c).length < 200 + 1 := by
      rw [List.length_replicate]; omega
    unfold compute_ma_crossover
    rw [if_neg hlen]
    rw [windows_replicate 50 n c (by norm_num) (by omega),
      windows_replicate 200 n c (by norm_num) (by omega)]
    have hsign : signQ 0 = 0 := by norm_num [signQ]
    simp only [List.map_replicate, qmean_replicate 50 c (by norm_num),
      qmean_replicate 200 c (by norm_num), List.drop_replicate,
      List.zipWith_replicate, sub_self, sup_eq_max, inf_eq_min, hsign]
    norm_num
    have hlast : (List.replicate ((n + 1 - 50 - 150) ⊓ (n + 1 - 200))
        (0 : ℚ)).getLast?.getD 0 = 0 := by
      rw [List.getLast?_replicate, if_neg (by omega), Option.getD_some]
    rw [if_neg (by omega), hlast, if_pos le_rfl, firstFlip_replicate]
  · -- zero flat level: all return cells dropped, no rolling volatility.
    intro hc
    subst hc
    have hlen : ¬ (List.replicate n (0 : ℚ)).length < 20 + 2 := by
      rw [List.length_replicate]; omega
    unfold compute_volatility_percentile
    rw [if_neg hlen, pctChange_replicate_zero]
    rfl
  · -- nonzero flat level: zero returns rank at the 100th percentile.
    intro hc
    have hlen : ¬ (List.replicate n c).length < 20 + 2 := by
      rw [List.length_replicate]; omega
    unfold compute_volatility_percentile
    rw [if_neg hlen, pctChange_replicate n c hc]
    dsimp only
    rw [windows_replicate 20 (n - 1) 0 (by norm_num) (by omega)]
    simp only [List.map_replicate, varPop_replicate, hsq]
    have hm : n - 1 + 1 - 20 ≠ 0 := by omega
    rw [if_neg (by
      simp only [List.isEmpty_iff]
      exact fun h => hm (by simpa using congrArg List.length h))]
    unfold takeLast
    simp only [List.getLast?_replicate, hm, if_false, Option.getD_some,
      List.length_replicate, List.drop_replicate, List.countP_replicate]
    rw [if_pos (by simp)]
    rw [div_self (Nat.cast_ne_zero.mpr (by omega)), one_mul]
    have h100 : roundHalfEven 100 = 100 := by norm_num [roundHalfEven]
    rw [h100]
    norm_num

/-- Witness for the amended C2 at the flat series of 201 fives (the real
square root satisfies `√0 = 0`, so the constant-zero instantiation of
`sqrtQ` is exact on every input this computation evaluates). -/
theorem flat_series_behaviour_witness :
    (∃ squeeze,
      compute_bollinger (fun _ => 0) (List.replicate 201 (5 : ℚ)) 20 2 =
        .ok ("at midline", squeeze)) ∧
    compute_ma_crossover (List.replicate 201 (5 : ℚ)) 50 200 =
      (some "golden cross", none) ∧
    compute_volatility_percentile (fun _ => 0) (List.replicate 201 (5 : ℚ))
      20 252 = .ok (100, "extremely high") :=
  have h := flat_series_behaviour (fun _ => 0) 5 201 (by norm_num) rfl
  ⟨h.1, h.2.1, h.2.2.2 (by norm_num)⟩

/-- Counterexample for C2 as stated: on flat series with enough samples
the MA crossover is `("golden cross", None)` rather than no crossover,
and the volatility percentile computation succeeds with "extremely high"
(percentile 100) rather than failing or reporting "extremely low". -/
theorem flat_series_counterexample :
    compute_ma_crossover (List.replicate 201 (5 : ℚ)) 50 200 =
      (some "golden cross", none) ∧
    compute_volatility_percentile (fun _ => 0) (List.replicate 22 (5 : ℚ))
      20 252 = .ok (100, "extremely high") :=
  ⟨by decide, by decide⟩

/-! ## Claim C8: regime trend label on rising series -/

/-- A list of values all above `t` has sum above `t` times its length. -/
theorem mul_length_lt_sum (t : ℚ) (l : List ℚ) (hne : l ≠ [])
    (h : ∀ x ∈ l, t < x) : t * l.length < l.sum := by
  induction l with
  | nil => exact absurd rfl hne
  | cons x xs ih =>
    rw [List.sum_cons, List.length_cons]
    rcases eq_or_ne xs [] with hxs | hxs
    · subst hxs
      simpa using h x (by simp)
    · have hx := h x (by simp)
      have ihx := ih hxs (fun z hz => h z (by simp [hz]))
      push_cast
      push_cast at ihx
      nlinarith [ihx, hx]

/-- The mean of a nonempty list of values all above `t` is above `t`. -/
theorem qmean_gt (t : ℚ) (l : List ℚ) (hne : l ≠ [])
    (h : ∀ x ∈ l, t < x) : t < qmean l := by
  have hlen : (0 : ℚ) < l.length := by
    exact_mod_cast List.length_pos.mpr hne
  rw [qmean, lt_div_iff hlen]
  exact mul_length_lt_sum t l hne h

/-- Number of rolling windows. -/
theorem windows_length (w : ℕ) (l : List α) :
    (windows w l).length = l.length + 1 - w := by
  unfold windows
  rw [List.length_map, List.length_range]

/-- Every rolling window over a long enough list is nonempty and drawn
from the list. -/
theorem mem_windows_spec {w : ℕ} {l ws : List α} (hw : 1 ≤ w)
    (hwl : w ≤ l.length) (h : ws ∈ windows w l) :
    ws ≠ [] ∧ ∀ x ∈ ws, x ∈ l := by
  unfold windows at h
  simp only [List.mem_map, List.mem_range] at h
  obtain ⟨i, hi, rfl⟩ := h
  constructor
  · intro hnil
    have hlen := congrArg List.length hnil
    rw [List.length_take, List.length_drop] at hlen
    simp only [List.length_nil] at hlen
    omega
  · intro x hx
    exact List.mem_of_mem_drop (List.mem_of_mem_take hx)

/-- The last element of a list is a member. -/
theorem mem_of_getLast?_eq {l : List α} {a : α} (h : l.getLast? = some a) :
    a ∈ l := by
  obtain ⟨ys, rfl⟩ := List.getLast?_eq_some_iff.mp h
  simp

/-- C8 (amended).  On the rolling-fallback path (ruptures absent), for a
close series of length 120 with no zero prices whose every single-step
simple return exceeds the trend threshold 0.0005, `analyze_regime` with
window 20 labels the current trend "Uptrend".  (Strict increase alone is
not enough: the rolling mean return must clear the threshold, see the
counterexample.) -/
theorem analyze_regime_uptrend (sqrtQ : ℚ → ℚ) (df : Frame)
    (column : String) (hval : validate_ohlcv_frame df = .ok ())
    (hcol : df.hasCol column = true)
    (hlen : (pctChangeIdx (df.numericWithIndex column)).length = 119)
    (hret : ∀ p ∈ pctChangeIdx (df.numericWithIndex column),
      mkRat 5 10000 < p.2) :
    ∃ stats, analyze_regime none sqrtQ df column 20 3 (mkRat 5 10000) =
      .ok stats ∧ stats.trend_label = "Uptrend" := by
  set returns := pctChangeIdx (df.numericWithIndex column) with hrets
  have hwlen : (windows 20 returns).length = 100 := by
    rw [windows_length, hlen]
  have hwne : windows 20 returns ≠ [] := by
    intro h0
    rw [h0] at hwlen
    simp at hwlen
  obtain ⟨w, hw⟩ :=
    Option.isSome_iff_exists.mp (List.getLast?_isSome.mpr hwne)
  have hwmem : w ∈ windows 20 returns := mem_of_getLast?_eq hw
  obtain ⟨hwne', hwsub⟩ :=
    mem_windows_spec (by norm_num) (by omega) hwmem
  have hmean : mkRat 5 10000 < qmean (w.map Prod.snd) := by
    apply qmean_gt
    · intro h0
      exact hwne' (List.map_eq_nil_iff.mp h0)
    · intro x hx
      obtain ⟨p, hp, rfl⟩ := List.mem_map.mp hx
      exact hret p (hwsub p hp)
  have hmne : ¬ ((rollingMeanIdx 20 returns).isEmpty = true ∨
      (rollingStdIdx sqrtQ 20 returns).isEmpty = true) := by
    rw [not_or]
    constructor
    · rw [List.isEmpty_iff]
      unfold rollingMeanIdx
      intro h0
      exact hwne (List.map_eq_nil_iff.mp h0)
    · rw [List.isEmpty_iff]
      unfold rollingStdIdx
      intro h0
      exact hwne (List.map_eq_nil_iff.mp h0)
  have hcur : trend_label
      ((((rollingMeanIdx 20 returns).getLast?).map Prod.snd).getD 0)
      (mkRat 5 10000) = "Uptrend" := by
    unfold rollingMeanIdx
    rw [List.getLast?_map, hw]
    simp only [Option.map_some', Option.getD_some]
    unfold trend_label
    rw [if_pos hmean]
  obtain ⟨cv, st, hroll⟩ : ∃ cv st,
      analyze_with_rolling sqrtQ returns 20 (mkRat 5 10000) =
        .ok ("Uptrend", cv, st) := by
    unfold analyze_with_rolling
    rw [if_neg hmne]
    dsimp only
    rw [hcur]
    exact ⟨_, _, rfl⟩
  refine ⟨RegimeStats.mk "Uptrend" cv st, ?_, rfl⟩
  unfold analyze_regime
  rw [hval]
  have h5 : ¬ (20 < 5) := by omega
  have h20 : ¬ (returns.length < 20) := by omega
  simp only [hcol, Bool.not_true, Bool.false_eq_true, if_false, h5,
    if_neg, ← hrets, h20, hroll]

/-- Strictly increasing 120-row frame whose closes double each step, so
every simple return is 1, far above the 0.0005 threshold. -/
def upFrame : Frame :=
  { validatedAttr := false
    isMultiIndex := false
    isDatetimeIndex := true
    index := (List.range 120).map Int.ofNat
    cols := [("Open", []), ("High", []), ("Low", []),
      ("Close", (List.range 120).map (fun i : ℕ => some ((2 : ℚ) ^ i))),
      ("Volume", [])] }

/-- Witness for the amended C8 at the doubling 120-row series. -/
theorem analyze_regime_uptrend_witness :
    validate_ohlcv_frame upFrame = .ok () ∧
    upFrame.hasCol "Close" = true ∧
    (pctChangeIdx (upFrame.numericWithIndex "Close")).length = 119 ∧
    (∀ p ∈ pctChangeIdx (upFrame.numericWithIndex "Close"),
      mkRat 5 10000 < p.2) ∧
    (∃ stats,
      analyze_regime none (fun _ => 0) upFrame "Close" 20 3
        (mkRat 5 10000) = .ok stats ∧ stats.trend_label = "Uptrend") :=
  ⟨by decide, by decide, by decide, by decide,
    analyze_regime_uptrend (fun _ => 0) upFrame "Close" (by decide)
      (by decide) (by decide) (by decide)⟩

/-- Strictly increasing 120-row frame whose closes grow by a factor
4001/4000 each step: every simple return is exactly 1/4000 < 0.0005. -/
def slowGrowthFrame : Frame :=
  { validatedAttr := false
    isMultiIndex := false
    isDatetimeIndex := true
    index := (List.range 120).map Int.ofNat
    cols := [("Open", []), ("High", []), ("Low", []),
      ("Close",
        (List.range 120).map (fun i : ℕ => some ((4001 / 4000 : ℚ) ^ i))),
      ("Volume", [])] }

/-- Counterexample for C8 as stated: a strictly increasing close series
of length 120 whose rolling mean return stays below the 0.0005 threshold
is labelled "Ranging", not "Uptrend".  (Each window of returns is
constant, so its population variance is exactly 0 and the constant-zero
`sqrtQ` instantiation agrees with the real square root on every input
evaluated here.) -/
theorem analyze_regime_counterexample :
    List.Pairwise (· < ·) (slowGrowthFrame.numericValues "Close") ∧
    (slowGrowthFrame.numericValues "Close").length = 120 ∧
    analyze_regime none (fun _ => 0) slowGrowthFrame "Close" 20 3
      (mkRat 5 10000) = .ok (RegimeStats.mk "Ranging" "low" 20) := by
  refine ⟨?_, by decide, by decide⟩
  have hvals : slowGrowthFrame.numericValues "Close" =
      (List.range 120).map (fun i : ℕ => (4001 / 4000 : ℚ) ^ i) := by
    show List.filterMap id
      ((List.range 120).map (fun i : ℕ => some ((4001 / 4000 : ℚ) ^ i))) =
      (List.range 120).map (fun i : ℕ => (4001 / 4000 : ℚ) ^ i)
    rw [List.filterMap_map]
    rw [show (id ∘ fun i : ℕ => some ((4001 / 4000 : ℚ) ^ i)) =
      some ∘ (fun i : ℕ => (4001 / 4000 : ℚ) ^ i) from rfl]
    rw [List.filterMap_eq_map]
  rw [hvals, List.pairwise_map]
  exact (List.pairwise_lt_range 120).imp
    (fun hij => pow_lt_pow_right₀ (by norm_num) hij)

/-! ## Claims C5 and C6: support/resistance levels

The greedy clustering of `_cluster_values` maintains the invariant that
every cluster holds a member within tolerance of its own running mean:
when `v` joins a cluster `c` with `|v − mean c| ≤ tol`, the new mean
moves towards `v`, so `|v − mean (c ++ [v])| ≤ |v − mean c| ≤ tol`.
That member lies in the price series, which makes every level's
all-price band touch count at least 1. -/

/-- Appending the joining value moves the cluster mean towards it. -/
theorem abs_sub_qmean_append (c : List ℚ) (v : ℚ) (hc : c ≠ []) :
    |v - qmean (c ++ [v])| ≤ |v - qmean c| := by
  have hn : (0 : ℚ) < c.length := by
    exact_mod_cast List.length_pos.mpr hc
  have hne2 : (c.length : ℚ) ≠ 0 := ne_of_gt hn
  have hne1 : (c.length : ℚ) + 1 ≠ 0 := by positivity
  have key : v - qmean (c ++ [v]) =
      ((c.length : ℚ) / ((c.length : ℚ) + 1)) * (v - qmean c) := by
    unfold qmean
    rw [List.sum_append, List.length_append]
    push_cast
    field_simp
    ring
  rw [key, abs_mul]
  have h1 : |(c.length : ℚ) / ((c.length : ℚ) + 1)| ≤ 1 := by
    rw [abs_of_nonneg (by positivity), div_le_one (by positivity)]
    linarith
  calc |(c.length : ℚ) / ((c.length : ℚ) + 1)| * |v - qmean c|
      ≤ 1 * |v - qmean c| :=
        mul_le_mul_of_nonneg_right h1 (abs_nonneg _)
    _ = |v - qmean c| := one_mul _

/-- Invariant of the greedy clustering: every cluster is drawn from the
source values and holds a member within tolerance of its mean. -/
def ClusterInv (tol : ℚ) (src : List ℚ) (cs : List (List ℚ)) : Prop :=
  ∀ c ∈ cs, (∀ x ∈ c, x ∈ src) ∧ ∃ x ∈ c, |x - qmean c| ≤ tol

theorem addToClusters_inv {tol : ℚ} {src : List ℚ} (htol : 0 ≤ tol)
    {v : ℚ} (hv : v ∈ src) :
    ∀ {cs : List (List ℚ)}, ClusterInv tol src cs →
      ClusterInv tol src (addToClusters tol cs v) := by
  intro cs
  induction cs with
  | nil =>
    intro _ c hc
    simp only [addToClusters, List.mem_singleton] at hc
    subst hc
    refine ⟨?_, v, by simp, ?_⟩
    · intro x hx
      rw [List.mem_singleton] at hx
      subst hx
      exact hv
    · have hm : qmean [v] = v := by simp [qmean]
      rw [hm, sub_self, abs_zero]
      exact htol
  | cons c₀ rest ih =>
    intro h c hc
    unfold addToClusters at hc
    by_cases hd : |v - qmean c₀| ≤ tol
    · rw [if_pos hd] at hc
      rcases List.mem_cons.mp hc with rfl | hcrest
      · have h₀ := h c₀ (List.mem_cons_self _ _)
        have hc₀ne : c₀ ≠ [] := by
          obtain ⟨x, hx, _⟩ := h₀.2
          exact List.ne_nil_of_mem hx
        refine ⟨?_, v, by simp, ?_⟩
        · intro x hx
          rcases List.mem_append.mp hx with hx | hx
          · exact h₀.1 x hx
          · rw [List.mem_singleton] at hx
            subst hx
            exact hv
        · exact le_trans (abs_sub_qmean_append c₀ v hc₀ne) hd
      · exact h c (List.mem_cons_of_mem _ hcrest)
    · rw [if_neg hd] at hc
      rcases List.mem_cons.mp hc with rfl | hcrest
      · exact h c (List.mem_cons_self _ _)
      · exact ih (fun c' hc' => h c' (List.mem_cons_of_mem _ hc')) c hcrest

theorem foldl_addToClusters_inv {tol : ℚ} {src : List ℚ} (htol : 0 ≤ tol) :
    ∀ (l : List ℚ) (cs : List (List ℚ)), (∀ v ∈ l, v ∈ src) →
      ClusterInv tol src cs →
      ClusterInv tol src (l.foldl (addToClusters tol) cs) := by
  intro l
  induction l with
  | nil => intro cs _ h; exact h
  | cons x xs ih =>
    intro cs hmem h
    rw [List.foldl_cons]
    exact ih _ (fun v hv => hmem v (by simp [hv]))
      (addToClusters_inv htol (hmem x (by simp)) h)

theorem cluster_values_inv (values : List ℚ) (tol : ℚ) (rev : Bool)
    (htol : 0 ≤ tol) :
    ClusterInv tol values (cluster_values values tol rev) := by
  unfold cluster_values
  cases rev
  · exact foldl_addToClusters_inv htol _ []
      (fun v hv => (List.perm_insertionSort _ values).mem_iff.mp hv)
      (fun c hc => absurd hc (List.not_mem_nil c))
  · exact foldl_addToClusters_inv htol _ []
      (fun v hv => (List.perm_insertionSort _ values).mem_iff.mp hv)
      (fun c hc => absurd hc (List.not_mem_nil c))

/-- Level lists are truncated to at most `max_levels` entries. -/
theorem build_levels_length (candidateValues extremaValues allPrices :
    List ℚ) (tol : ℚ) (maxLevels : ℕ) (rev : Bool) :
    (build_levels candidateValues extremaValues allPrices tol maxLevels
      rev).length ≤ maxLevels := by
  unfold build_levels
  split
  · simp
  · rw [List.length_take]
    exact min_le_left _ _

/-- Every returned level has at least one touch: the cluster member
within tolerance of the level price is itself one of the prices counted
by the all-price band. -/
theorem build_levels_touches (candidateValues extremaValues allPrices :
    List ℚ) (tol : ℚ) (maxLevels : ℕ) (rev : Bool) (htol : 0 ≤ tol)
    (hsub : ∀ x ∈ candidateValues, x ∈ allPrices) :
    ∀ lvl ∈ build_levels candidateValues extremaValues allPrices tol
      maxLevels rev, 1 ≤ lvl.touches := by
  intro lvl hl
  unfold build_levels at hl
  split at hl
  · exact absurd hl (List.not_mem_nil _)
  · have hl₁ := List.mem_of_mem_take hl
    have hl₂ := (List.perm_insertionSort _ _).mem_iff.mp hl₁
    obtain ⟨c, hcmem, rfl⟩ := List.mem_map.mp hl₂
    obtain ⟨hsrc, x, hxc, hxtol⟩ :=
      cluster_values_inv candidateValues tol rev htol c hcmem
    have hband : 0 < allPrices.countP
        (fun p => decide (|p - qmean c| ≤ tol)) :=
      List.countP_pos.mpr ⟨x, hsub x (hsrc x hxc), decide_eq_true hxtol⟩
    exact le_trans hband (le_max_right _ _)

/-- Inversion of a successful `find_support_resistance` call: the stats
are built by `_build_levels` from candidates drawn from the price series
with a nonnegative tolerance. -/
theorem find_support_resistance_ok_shape {df : Frame} {column : String}
    {toleranceRatio : ℚ} {maxLevels extremaOrder : ℕ} {stats : LevelStats}
    (h : find_support_resistance df column toleranceRatio maxLevels
      extremaOrder = .ok stats) :
    ∃ (candS candR extrS extrR prices : List ℚ) (tol : ℚ),
      0 ≤ tol ∧ (∀ x ∈ candS, x ∈ prices) ∧ (∀ x ∈ candR, x ∈ prices) ∧
      stats = LevelStats.mk
        (build_levels candS extrS prices tol maxLevels true)
        (build_levels candR extrR prices tol maxLevels false) := by
  unfold find_support_resistance at h
  rcases hval : validate_ohlcv_frame df with e | u <;> rw [hval] at h
  · exact Except.noConfusion h
  · dsimp only at h
    split_ifs at h with h₁ h₂ h₃ h₄ h₅
    all_goals try exact Except.noConfusion h
    have hstats := (Except.ok.inj h).symm
    set prices := df.numericValues column with hprices
    have hgetD : ∀ i : ℕ, i < prices.length → prices.getD i 0 ∈ prices := by
      intro i hi
      rw [List.getD_eq_getElem prices 0 hi]
      exact List.getElem_mem hi
    have hidx : ∀ (cmp : ℚ → ℚ → Bool) (i : ℕ),
        i ∈ relExtremaIndices cmp extremaOrder prices →
        i < prices.length := by
      intro cmp i hi
      unfold relExtremaIndices at hi
      exact List.mem_range.mp (List.mem_filter.mp hi).1
    refine ⟨_, _, _, _, prices, _, ?_, ?_, ?_, hstats⟩
    · exact le_trans (by norm_num [Rat.mkRat_eq_div]) (le_max_right _ _)
    · intro x hx
      obtain ⟨i, hi, hfx⟩ := List.mem_filterMap.mp hx
      by_cases hle : prices.getD i 0 ≤ (prices.getLast?).getD 0
      · rw [if_pos hle] at hfx
        obtain rfl := Option.some.inj hfx
        exact hgetD i (hidx _ i hi)
      · rw [if_neg hle] at hfx
        exact absurd hfx (by simp)
    · intro x hx
      obtain ⟨i, hi, hfx⟩ := List.mem_filterMap.mp hx
      by_cases hle : (prices.getLast?).getD 0 ≤ prices.getD i 0
      · rw [if_pos hle] at hfx
        obtain rfl := Option.some.inj hfx
        exact hgetD i (hidx _ i hi)
      · rw [if_neg hle] at hfx
        exact absurd hfx (by simp)

/-- C5.  Every successful `find_support_resistance` call returns at most
`max_levels` supports and at most `max_levels` resistances, and every
returned level's touch count is at least 1. -/
theorem find_support_resistance_bounds (df : Frame) (column : String)
    (toleranceRatio : ℚ) (maxLevels extremaOrder : ℕ) (stats : LevelStats)
    (h : find_support_resistance df column toleranceRatio maxLevels
      extremaOrder = .ok stats) :
    stats.supports.length ≤ maxLevels ∧
    stats.resistances.length ≤ maxLevels ∧
    (∀ lvl ∈ stats.supports, 1 ≤ lvl.touches) ∧
    (∀ lvl ∈ stats.resistances, 1 ≤ lvl.touches) := by
  obtain ⟨candS, candR, extrS, extrR, prices, tol, htol, hsubS, hsubR,
    rfl⟩ := find_support_resistance_ok_shape h
  exact ⟨build_levels_length _ _ _ _ _ _,
    build_levels_length _ _ _ _ _ _,
    build_levels_touches _ _ _ _ _ _ htol hsubS,
    build_levels_touches _ _ _ _ _ _ htol hsubR⟩

/-- Six-row frame with two tied-touch support clusters (prices 9 and 7)
below the final price 9 and one resistance cluster at 10. -/
def tieFrame : Frame :=
  { validatedAttr := false
    isMultiIndex := false
    isDatetimeIndex := true
    index := [0, 1, 2, 3, 4, 5]
    cols := [("Open", []), ("High", []), ("Low", []),
      ("Close", [some 10, some 5, some 10, some 7, some 10, some 9]),
      ("Volume", [])] }

/-- Witness for C5 at `tieFrame` with `max_levels = 2`,
`extrema_order = 1`. -/
theorem find_support_resistance_bounds_witness :
    find_support_resistance tieFrame "Close" (1/100) 2 1 =
      .ok (LevelStats.mk [PriceLevel.mk 9 1, PriceLevel.mk 7 1]
        [PriceLevel.mk 10 3]) ∧
    [PriceLevel.mk 9 1, PriceLevel.mk 7 1].length ≤ 2 ∧
    [PriceLevel.mk 10 3].length ≤ 2 ∧
    (∀ lvl ∈ ([PriceLevel.mk 9 1, PriceLevel.mk 7 1] : List PriceLevel),
      1 ≤ lvl.touches) ∧
    (∀ lvl ∈ ([PriceLevel.mk 10 3] : List PriceLevel), 1 ≤ lvl.touches) :=
  have h : find_support_resistance tieFrame "Close" (1/100) 2 1 =
      .ok (LevelStats.mk [PriceLevel.mk 9 1, PriceLevel.mk 7 1]
        [PriceLevel.mk 10 3]) := by decide
  have hb := find_support_resistance_bounds tieFrame "Close" (1/100) 2 1 _ h
  ⟨h, hb.1, hb.2.1, hb.2.2.1, hb.2.2.2⟩

/-! ### Claim C6: tie-breaking order of the returned levels -/

/-- Order actually used for supports: rank (touch count) descending,
higher price first on tied ranks. -/
def supportsTieOrder (a b : PriceLevel) : Prop :=
  b.touches < a.touches ∨ (a.touches = b.touches ∧ b.price ≤ a.price)

/-- Order actually used for resistances: rank descending, lower price
first on tied ranks.  (The claim asserts the two tie directions the
other way around.) -/
def resistancesTieOrder (a b : PriceLevel) : Prop :=
  b.touches < a.touches ∨ (a.touches = b.touches ∧ a.price ≤ b.price)

instance : IsTotal PriceLevel (levelRel rev) where
  total := by
    intro a b
    unfold levelRel
    by_cases h : a.touches = b.touches
    · rw [if_pos h, if_pos h.symm]
      cases rev
      · exact le_total a.price b.price
      · exact le_total b.price a.price
    · rw [if_neg h, if_neg (Ne.symm h)]
      exact le_total b.touches a.touches

instance : IsTrans PriceLevel (levelRel rev) where
  trans := by
    intro a b c hab hbc
    unfold levelRel at hab hbc ⊢
    split_ifs at hab hbc ⊢ <;>
      first
        | exact le_trans hab hbc
        | exact le_trans hbc hab
        | omega

/-- The sorted-and-truncated level list is pairwise ordered by the sort
relation. -/
theorem build_levels_sorted (candidateValues extremaValues allPrices :
    List ℚ) (tol : ℚ) (maxLevels : ℕ) (rev : Bool) :
    List.Pairwise (levelRel rev)
      (build_levels candidateValues extremaValues allPrices tol maxLevels
        rev) := by
  unfold build_levels
  split
  · exact List.Pairwise.nil
  · exact List.Pairwise.sublist (List.take_sublist _ _)
      (List.sorted_insertionSort _ _)

theorem levelRel_imp_supportsTieOrder {a b : PriceLevel}
    (h : levelRel true a b) : supportsTieOrder a b := by
  unfold levelRel at h
  unfold supportsTieOrder
  by_cases heq : a.touches = b.touches
  · rw [if_pos heq] at h
    exact Or.inr ⟨heq, h⟩
  · rw [if_neg heq] at h
    exact Or.inl (lt_of_le_of_ne h (fun hc => heq hc.symm))

theorem levelRel_imp_resistancesTieOrder {a b : PriceLevel}
    (h : levelRel false a b) : resistancesTieOrder a b := by
  unfold levelRel at h
  unfold resistancesTieOrder
  by_cases heq : a.touches = b.touches
  · rw [if_pos heq] at h
    exact Or.inr ⟨heq, h⟩
  · rw [if_neg heq] at h
    exact Or.inl (lt_of_le_of_ne h (fun hc => heq hc.symm))

/-- C6 (amended).  In every `LevelStats` returned by
`find_support_resistance`, supports are sorted by touch count descending
with the **higher** price first on tied ranks, resistances with the
**lower** price first on tied ranks, each truncated to `max_levels` —
the tie directions are the opposite of the claim's. -/
theorem find_support_resistance_ordering (df : Frame) (column : String)
    (toleranceRatio : ℚ) (maxLevels extremaOrder : ℕ) (stats : LevelStats)
    (h : find_support_resistance df column toleranceRatio maxLevels
      extremaOrder = .ok stats) :
    List.Pairwise supportsTieOrder stats.supports ∧
    List.Pairwise resistancesTieOrder stats.resistances ∧
    stats.supports.length ≤ maxLevels ∧
    stats.resistances.length ≤ maxLevels := by
  obtain ⟨candS, candR, extrS, extrR, prices, tol, htol, hsubS, hsubR,
    rfl⟩ := find_support_resistance_ok_shape h
  refine ⟨?_, ?_, build_levels_length _ _ _ _ _ _,
    build_levels_length _ _ _ _ _ _⟩
  · exact (build_levels_sorted _ _ _ _ _ _).imp
      (fun hr => levelRel_imp_supportsTieOrder hr)
  · exact (build_levels_sorted _ _ _ _ _ _).imp
      (fun hr => levelRel_imp_resistancesTieOrder hr)

/-- Witness for the amended C6 at `tieFrame`: the returned supports put
the tied-rank higher price 9 before 7. -/
theorem find_support_resistance_ordering_witness :
    find_support_resistance tieFrame "Close" (1/100) 2 1 =
      .ok (LevelStats.mk [PriceLevel.mk 9 1, PriceLevel.mk 7 1]
        [PriceLevel.mk 10 3]) ∧
    List.Pairwise supportsTieOrder
      [PriceLevel.mk 9 1, PriceLevel.mk 7 1] ∧
    List.Pairwise resistancesTieOrder [PriceLevel.mk 10 3] :=
  have h : find_support_resistance tieFrame "Close" (1/100) 2 1 =
      .ok (LevelStats.mk [PriceLevel.mk 9 1, PriceLevel.mk 7 1]
        [PriceLevel.mk 10 3]) := by decide
  have ho := find_support_resistance_ordering tieFrame "Close" (1/100) 2 1
    _ h
  ⟨h, ho.1, ho.2.1⟩

/-- Counterexample for C6 as stated: at `tieFrame` the two supports have
equal touch counts but the higher price comes first, violating the
claimed lower-price-first tie order for supports. -/
theorem find_support_resistance_ordering_counterexample :
    find_support_resistance tieFrame "Close" (1/100) 2 1 =
      .ok (LevelStats.mk [PriceLevel.mk 9 1, PriceLevel.mk 7 1]
        [PriceLevel.mk 10 3]) ∧
    ¬ List.Pairwise resistancesTieOrder
      [PriceLevel.mk 9 1, PriceLevel.mk 7 1] := by
  constructor
  · decide
  · intro hp
    rcases (List.pairwise_cons.mp hp).1 (PriceLevel.mk 7 1) (by simp)
      with hlt | ⟨_, hle⟩
    · exact absurd hlt (by norm_num)
    · exact absurd hle (by norm_num)

end Narrata
